import Mathlib

/-!
Shallow embedding of the content-generation ("smart caching") controllers of the
EDUAI backend: the deck / activity / lesson-plan / topic generators, their
AI-assisted update operations, the plain update / delete handlers, and the
`aiGenerate` service wrapper.

Database tables are embedded as lists of rows; `SELECT ... ORDER BY created_at
DESC LIMIT 1` is embedded as `newestMatch`; the external AI service is an
oracle parameter (`ExtOutcome`), and each handler returns its HTTP response
together with the new database state and the number of external-service
invocations it performed.  `Teacher` embeds the controller using exact
source-field cache matching; `Legacy` embeds the older controller variant that
matches by title substring (ILIKE).
-/

/-- SQL three-valued equality of a nullable column against a nullable
parameter: `school_id = $2` is never satisfied when either side is NULL. -/
def sqlEqNull : Option String → Option String → Bool
  | some a, some b => a == b
  | _, _ => false

/-- The NULL-aware ownership filter
`school_id = $2 OR (school_id IS NULL AND $2 IS NULL)`. -/
def schoolMatch : Option String → Option String → Bool
  | some a, some b => a == b
  | none, none => true
  | _, _ => false

/-- JavaScript truthiness of an optional string (the `chapter` in
`if (!forceRegenerate && chapter)`): undefined, null and "" are falsy. -/
def optTruthy : Option String → Option String
  | some s => if s == "" then none else some s
  | none => none

/-- ASCII lower-casing of one character (as `toLowerCase` acts on the
ASCII titles and topics compared here). -/
def lcChar (c : Char) : Char :=
  if 'A' <= c && c <= 'Z' then Char.ofNat (c.toNat + 32) else c

/-- Whitespace as stripped by `.trim()`. -/
def isWsChar (c : Char) : Bool :=
  c == ' ' || c == '\t' || c == '\n' || c == '\r'

/-- Drop leading whitespace from a character list. -/
def dropWs : List Char → List Char
  | [] => []
  | c :: cs => if isWsChar c then dropWs cs else c :: cs

/-- Model of `String.prototype.trim` (the express-validator sanitizer). -/
def strTrim (s : String) : String :=
  ⟨dropWs (dropWs s.data.reverse).reverse⟩

/-- Whether `pat` occurs at the start of `hay` (character lists). -/
def charsStartWith : List Char → List Char → Bool
  | [], _ => true
  | _ :: _, [] => false
  | a :: as, b :: bs => a == b && charsStartWith as bs

/-- Whether `pat` occurs anywhere inside `hay` (character lists). -/
def charsContain (pat : List Char) : List Char → Bool
  | [] => pat.isEmpty
  | b :: t => charsStartWith pat (b :: t) || charsContain pat t

/-- SQL `hay ILIKE '%pat%'`: case-insensitive substring containment. -/
def ilikeContains (hay pat : String) : Bool :=
  charsContain (pat.data.map lcChar) (hay.data.map lcChar)

/-- Keep the row with the larger timestamp (the later row wins only if
strictly newer, which is irrelevant under the strict-freshness hypotheses
used below). -/
def pickNewer {α : Type} (ts : α → Nat) : Option α → α → Option α
  | none, r => some r
  | some a, r => if ts a < ts r then some r else some a

/-- One fold step of `newestMatch`. -/
def newestStep {α : Type} (ts : α → Nat) (p : α → Bool) (acc : Option α) (r : α) : Option α :=
  if p r then pickNewer ts acc r else acc

/-- `SELECT * FROM t WHERE p ORDER BY created_at DESC LIMIT 1`: the matching
row with the greatest timestamp (if any). -/
def newestMatch {α : Type} (ts : α → Nat) (p : α → Bool) (rows : List α) : Option α :=
  rows.foldl (newestStep ts p) none

theorem foldl_newestStep_lt {α : Type} (ts : α → Nat) (p : α → Bool) (r : α)
    (hp : p r = true) :
    ∀ (rows : List α) (acc : Option α),
      (∀ x ∈ rows, ts x < ts r) →
      (acc = none ∨ ∃ a, acc = some a ∧ ts a < ts r) →
      List.foldl (newestStep ts p) acc (rows ++ [r]) = some r := by
  intro rows
  induction rows with
  | nil =>
      intro acc _ hacc
      rcases hacc with h | ⟨a, ha, hlt⟩
      · simp [h, newestStep, hp, pickNewer]
      · simp [ha, newestStep, hp, pickNewer, hlt]
  | cons x xs ih =>
      intro acc hlt hacc
      have hx : ts x < ts r := hlt x (List.mem_cons_self x xs)
      have hxs : ∀ y ∈ xs, ts y < ts r := fun y hy => hlt y (List.mem_cons_of_mem x hy)
      have hstep : newestStep ts p acc x = acc ∨
          ∃ a, newestStep ts p acc x = some a ∧ ts a < ts r := by
        by_cases hpx : p x = true
        · rcases hacc with h | ⟨a, ha, halt⟩
          · right; exact ⟨x, by simp [newestStep, hpx, h, pickNewer], hx⟩
          · right
            subst ha
            by_cases hax : ts a < ts x
            · exact ⟨x, by simp [newestStep, hpx, pickNewer, hax], hx⟩
            · exact ⟨a, by simp [newestStep, hpx, pickNewer, hax], halt⟩
        · left; simp [newestStep, hpx]
      have hacc2 : newestStep ts p acc x = none ∨
          ∃ a, newestStep ts p acc x = some a ∧ ts a < ts r := by
        rcases hstep with h | h
        · rcases hacc with h0 | ⟨a, ha, halt⟩
          · left; rw [h, h0]
          · right; exact ⟨a, by rw [h, ha], halt⟩
        · right; exact h
      simpa using ih (newestStep ts p acc x) hxs hacc2

/-- Appending a strictly newer matching row makes it the lookup result. -/
theorem newestMatch_append_newest {α : Type} (ts : α → Nat) (p : α → Bool)
    (rows : List α) (r : α) (hp : p r = true) (hlt : ∀ x ∈ rows, ts x < ts r) :
    newestMatch ts p (rows ++ [r]) = some r :=
  foldl_newestStep_lt ts p r hp rows none hlt (Or.inl rfl)

theorem foldl_newestStep_mono {α : Type} (ts : α → Nat) (p : α → Bool) :
    ∀ (rows : List α) (a r : α),
      List.foldl (newestStep ts p) (some a) rows = some r → ts a ≤ ts r := by
  intro rows
  induction rows with
  | nil => intro a r h; simp at h; subst h; exact Nat.le_refl _
  | cons x xs ih =>
      intro a r h
      simp only [List.foldl_cons] at h
      by_cases hpx : p x = true
      · by_cases hax : ts a < ts x
        · have : newestStep ts p (some a) x = some x := by
            simp [newestStep, hpx, pickNewer, hax]
          rw [this] at h
          exact Nat.le_trans (Nat.le_of_lt hax) (ih x r h)
        · have : newestStep ts p (some a) x = some a := by
            simp [newestStep, hpx, pickNewer, hax]
          rw [this] at h
          exact ih a r h
      · have : newestStep ts p (some a) x = some a := by simp [newestStep, hpx]
        rw [this] at h
        exact ih a r h

theorem foldl_newestStep_sound {α : Type} (ts : α → Nat) (p : α → Bool) :
    ∀ (rows : List α) (acc : Option α) (r : α),
      List.foldl (newestStep ts p) acc rows = some r →
      ((acc = some r) ∨ (p r = true ∧ r ∈ rows)) ∧
      (∀ x ∈ rows, p x = true → ts x ≤ ts r) := by
  intro rows
  induction rows with
  | nil => intro acc r h; simp at h; exact ⟨Or.inl h, by simp⟩
  | cons x xs ih =>
      intro acc r h
      simp only [List.foldl_cons] at h
      have main := ih (newestStep ts p acc x) r h
      by_cases hpx : p x = true
      · have hts : ∃ b, newestStep ts p acc x = some b ∧ ts x ≤ ts b := by
          cases acc with
          | none => exact ⟨x, by simp [newestStep, hpx, pickNewer], Nat.le_refl _⟩
          | some a =>
              by_cases hax : ts a < ts x
              · exact ⟨x, by simp [newestStep, hpx, pickNewer, hax], Nat.le_refl _⟩
              · exact ⟨a, by simp [newestStep, hpx, pickNewer, hax], Nat.le_of_not_lt hax⟩
        rcases hts with ⟨b, hb, hxb⟩
        have hbr : ts b ≤ ts r := by
          rw [hb] at h
          exact foldl_newestStep_mono ts p xs b r h
        refine ⟨?_, ?_⟩
        · rcases main.1 with hacc | hmem
          · cases acc with
            | none =>
                have hxr : x = r := by simpa [newestStep, hpx, pickNewer] using hacc
                right
                exact ⟨by rw [← hxr]; exact hpx, by rw [← hxr]; exact List.mem_cons_self x xs⟩
            | some a =>
                by_cases hax : ts a < ts x
                · have hxr : x = r := by simpa [newestStep, hpx, pickNewer, hax] using hacc
                  right
                  exact ⟨by rw [← hxr]; exact hpx, by rw [← hxr]; exact List.mem_cons_self x xs⟩
                · have har : a = r := by simpa [newestStep, hpx, pickNewer, hax] using hacc
                  left; rw [har]
          · right; exact ⟨hmem.1, List.mem_cons_of_mem x hmem.2⟩
        · intro y hy hpy
          rcases List.mem_cons.mp hy with hyx | hyxs
          · rw [hyx]; exact Nat.le_trans hxb hbr
          · exact main.2 y hyxs hpy
      · have hstep : newestStep ts p acc x = acc := by simp [newestStep, hpx]
        rw [hstep] at main
        refine ⟨?_, ?_⟩
        · rcases main.1 with h1 | h2
          · left; exact h1
          · right; exact ⟨h2.1, List.mem_cons_of_mem x h2.2⟩
        · intro y hy hpy
          rcases List.mem_cons.mp hy with hyx | hyxs
          · rw [hyx] at hpy; rw [hpy] at hpx; exact absurd rfl hpx
          · exact main.2 y hyxs hpy

/-- Soundness of the cache lookup: the result matches the filter, belongs to
the table, and is maximal in `created_at` among all matching rows. -/
theorem newestMatch_sound {α : Type} (ts : α → Nat) (p : α → Bool)
    (rows : List α) (r : α) (h : newestMatch ts p rows = some r) :
    p r = true ∧ r ∈ rows ∧ ∀ x ∈ rows, p x = true → ts x ≤ ts r := by
  have main := foldl_newestStep_sound ts p rows none r h
  rcases main.1 with h1 | h2
  · exact absurd h1 (by simp)
  · exact ⟨h2.1, h2.2, main.2⟩

/-! ## Data model: table rows and database state -/

/-- Authenticated caller context (`req.user.id`, `req.user.school_id || null`). -/
structure UserCtx where
  id : String
  schoolId : Option String
deriving Repr, DecidableEq

/-- A row of the `decks` table.  The legacy insert leaves `source_topics` /
`source_chapter` NULL, modelled as `[]` / `none`. -/
structure DeckRow where
  id : Nat
  title : String
  subject : String
  gradeLevel : String
  createdBy : String
  schoolId : Option String
  sourceTopics : List String
  sourceChapter : Option String
  createdAt : Nat
  updatedAt : Nat
deriving Repr, DecidableEq

/-- A row of the `slides` table (visual-metadata columns of the legacy insert
are not modelled; no claim concerns them). -/
structure SlideRow where
  id : Nat
  deckId : Nat
  title : String
  content : String
  slideOrder : Int
deriving Repr, DecidableEq

/-- A row of the `activities` table.  The JSONB round trip
(`JSON.stringify` on insert, `parseJsonField` on read) is modelled as the
identity on the stored lists.  Note: the table has no grade-level column. -/
structure ActivityRow where
  id : Nat
  title : String
  subject : String
  activityType : String
  duration : Int
  materials : List String
  steps : List String
  learningOutcomes : List String
  createdBy : String
  schoolId : Option String
  sourceTopic : String
  createdAt : Nat
deriving Repr, DecidableEq

/-- A row of the `lesson_plans` table; the stringified JSON payload columns
are kept opaque. -/
structure LessonPlanRow where
  id : Nat
  title : String
  subject : String
  gradeLevel : String
  duration : Int
  objectives : String
  concepts : String
  sequence : String
  assessments : String
  resources : String
  createdBy : String
  schoolId : Option String
  sourceTopics : List String
  createdAt : Nat
  updatedAt : Nat
deriving Repr, DecidableEq

/-- A row of the `topics` table. -/
structure TopicRow where
  id : Nat
  title : String
  subject : String
  gradeLevel : String
  createdBy : String
  schoolId : Option String
  sourceTopic : String
  createdAt : Nat
  updatedAt : Nat
deriving Repr, DecidableEq

/-- A row of the `topic_items` table. -/
structure TopicItemRow where
  id : Nat
  topicId : Nat
  title : String
  content : String
  itemOrder : Int
deriving Repr, DecidableEq

/-- The persistent store.  UUID generation is modelled by the `nextId`
counter and `NOW()` by the monotone `now` counter. -/
structure DB where
  decks : List DeckRow
  slides : List SlideRow
  activities : List ActivityRow
  lessonPlans : List LessonPlanRow
  topics : List TopicRow
  topicItems : List TopicItemRow
  nextId : Nat
  now : Nat
deriving Repr, DecidableEq

/-- The empty database. -/
def emptyDB : DB := ⟨[], [], [], [], [], [], 0, 0⟩

/-! ## External AI service oracle and handler results -/

/-- One slide / item as returned by the AI service
(`{title, content, order}`). -/
structure Slide where
  title : String
  content : String
  order : Int
deriving Repr, DecidableEq

/-- AI response for deck / topic generation and modification:
`{title, slides}`. -/
structure DeckGenResult where
  title : String
  slides : List Slide
deriving Repr, DecidableEq

/-- AI response for activity generation. -/
structure ActivityGenResult where
  title : String
  materials : List String
  steps : List String
  learningOutcomes : List String
deriving Repr, DecidableEq

/-- AI response for lesson-plan generation. -/
structure LPGenResult where
  title : String
  objectives : String
  concepts : String
  sequence : String
  assessments : String
  resources : String
deriving Repr, DecidableEq

/-- Outcome of one axios POST to the AI service, supplied as an oracle:
either the parsed response data, or a failure carrying
`error.response?.data?.detail` and `error.message`. -/
inductive ExtOutcome (α : Type) where
  | ok (val : α)
  | err (detail : Option String) (message : String)
deriving Repr, DecidableEq

/-- Error responses produced at the request boundary: express-validator 400s,
`AppError`s with status and code, and uncaught exceptions reaching the generic
error handler (status 500, no code). -/
inductive ApiErr where
  | validation
  | appError (message : String) (status : Nat) (code : String)
  | internal (message : String)
deriving Repr, DecidableEq

/-- An HTTP response body: either the JSON payload or an error. -/
inductive ApiResp (α : Type) where
  | ok (val : α)
  | error (e : ApiErr)
deriving Repr, DecidableEq

/-- Result of one handler invocation: response, final database state, and
how many times the external AI service was invoked. -/
structure OpResult (α : Type) where
  resp : ApiResp α
  db : DB
  extCalls : Nat
deriving Repr, DecidableEq

/-- The `slides` field of a deck response: DB rows on a cache hit,
raw service slides on a miss (the code sends whichever it has). -/
inductive SlidesPayload where
  | fromDb (rows : List SlideRow)
  | fromService (slides : List Slide)
deriving Repr, DecidableEq

/-- The deck-generation response body `{...deck, slides}`. -/
structure DeckResponse where
  deck : DeckRow
  slides : SlidesPayload
deriving Repr, DecidableEq

/-- The `slides` field of a topic response. -/
inductive TopicItemsPayload where
  | fromDb (rows : List TopicItemRow)
  | fromService (slides : List Slide)
deriving Repr, DecidableEq

/-- The topic-generation response body `{...topicData, slides}`. -/
structure TopicResponse where
  topic : TopicRow
  slides : TopicItemsPayload
deriving Repr, DecidableEq

/-- The formatted activity body assembled for the frontend (identical
construction on cache hit and miss; it carries no row id). -/
structure FormattedActivity where
  title : String
  description : String
  instructions : List String
  materials : List String
  duration : String
  subject : String
  gradeLevel : String
deriving Repr, DecidableEq

/-- `parseJsonField(row.learning_outcomes)?.[0] || 'Activity for ' + topic`:
first learning outcome, with JS falsiness sending "" to the fallback. -/
def describeFrom (outcomes : List String) (topic : String) : String :=
  match outcomes with
  | first :: _ => if first == "" then "Activity for " ++ topic else first
  | [] => "Activity for " ++ topic

/-- Build the formatted activity from a stored row, the request's grade level
(the table stores none) and the requested topic. -/
def formatActivity (row : ActivityRow) (gradeLevel topic : String) : FormattedActivity :=
  { title := row.title
  , description := describeFrom row.learningOutcomes topic
  , instructions := row.steps
  , materials := row.materials
  , duration := toString row.duration ++ " minutes"
  , subject := row.subject
  , gradeLevel := gradeLevel }

/-! ## Insert helpers (batch child inserts preserve order) -/

/-- The slide rows created by the insert loop, with sequential fresh ids. -/
def mkSlideRows (deckId : Nat) : Nat → List Slide → List SlideRow
  | _, [] => []
  | startId, s :: rest =>
      { id := startId, deckId := deckId, title := s.title, content := s.content,
        slideOrder := s.order } :: mkSlideRows deckId (startId + 1) rest

/-- The slide insert loop:
`INSERT INTO slides (deck_id, title, content, slide_order) VALUES ...`. -/
def insertSlides (deckId : Nat) : List Slide → DB → DB
  | [], db => db
  | s :: rest, db =>
      insertSlides deckId rest
        { db with
          slides := db.slides ++
            [{ id := db.nextId, deckId := deckId, title := s.title,
               content := s.content, slideOrder := s.order }],
          nextId := db.nextId + 1 }

/-- The topic-item rows created by the insert loop. -/
def mkTopicItemRows (topicId : Nat) : Nat → List Slide → List TopicItemRow
  | _, [] => []
  | startId, s :: rest =>
      { id := startId, topicId := topicId, title := s.title, content := s.content,
        itemOrder := s.order } :: mkTopicItemRows topicId (startId + 1) rest

/-- The topic-item insert loop:
`INSERT INTO topic_items (topic_id, title, content, item_order) VALUES ...`. -/
def insertTopicItems (topicId : Nat) : List Slide → DB → DB
  | [], db => db
  | s :: rest, db =>
      insertTopicItems topicId rest
        { db with
          topicItems := db.topicItems ++
            [{ id := db.nextId, topicId := topicId, title := s.title,
               content := s.content, itemOrder := s.order }],
          nextId := db.nextId + 1 }

theorem insertSlides_spec (deckId : Nat) :
    ∀ (ss : List Slide) (db : DB),
      insertSlides deckId ss db =
        { db with slides := db.slides ++ mkSlideRows deckId db.nextId ss,
                  nextId := db.nextId + ss.length } := by
  intro ss
  induction ss with
  | nil => intro db; simp [insertSlides, mkSlideRows]
  | cons s rest ih =>
      intro db
      rw [insertSlides, ih]
      simp only [mkSlideRows, DB.mk.injEq]
      cases db
      simp
      omega

theorem insertTopicItems_spec (topicId : Nat) :
    ∀ (ss : List Slide) (db : DB),
      insertTopicItems topicId ss db =
        { db with topicItems := db.topicItems ++ mkTopicItemRows topicId db.nextId ss,
                  nextId := db.nextId + ss.length } := by
  intro ss
  induction ss with
  | nil => intro db; simp [insertTopicItems, mkTopicItemRows]
  | cons s rest ih =>
      intro db
      rw [insertTopicItems, ih]
      simp only [mkTopicItemRows, DB.mk.injEq]
      cases db
      simp
      omega

/-- Insert into a list sorted by an integer key (stable). -/
def insertByKey {α : Type} (key : α → Int) (s : α) : List α → List α
  | [] => [s]
  | x :: xs => if key s ≤ key x then s :: x :: xs else x :: insertByKey key s xs

/-- Stable sort by an integer key: `ORDER BY slide_order` / `ORDER BY item_order`. -/
def sortByKey {α : Type} (key : α → Int) : List α → List α
  | [] => []
  | x :: xs => insertByKey key x (sortByKey key xs)

/-! ## The part_002 teacher controller (exact source-field cache matching) -/

namespace Teacher

/-- Body of `POST /teacher/deck/generate` for this controller:
`{topics, subject, gradeLevel, chapter, forceRegenerate = false}`
(`topics` is normalised to an array by the handler). -/
structure DeckGenReq where
  topics : List String
  subject : String
  gradeLevel : String
  chapter : Option String
  forceRegenerate : Bool
deriving Repr, DecidableEq

/-- Route validators for deck generation: `topics` a non-empty array,
`subject` and `gradeLevel` non-empty after trim, `chapter` optional.
Returns the list of failed fields (`errors.array()`). -/
def validateDeckReq (req : DeckGenReq) : List String :=
  (if req.topics.isEmpty then ["topics"] else []) ++
  (if strTrim req.subject == "" then ["subject"] else []) ++
  (if strTrim req.gradeLevel == "" then ["gradeLevel"] else [])

/-- Deck cache filter:
`created_by = $1 AND subject = $2 AND grade_level = $3 AND source_chapter = $4`. -/
def deckCacheMatch (uid subject grade chapter : String) (r : DeckRow) : Bool :=
  r.createdBy == uid && r.subject == subject && r.gradeLevel == grade &&
    r.sourceChapter == some chapter

/-- `generateDeck` (part_002): validation, smart-cache lookup guarded by
`!forceRegenerate && chapter`, configuration check, AI call, insert of the
deck and its slides, and the `{...deck, slides}` response.  `numSlides` is
only part of the AI request payload and the AI outcome is an oracle, so it is
not tracked; `logEvent` writes to the analytics table only, which no claim
concerns. -/
def generateDeck (cfg : Option String) (u : UserCtx) (req : DeckGenReq)
    (svc : ExtOutcome DeckGenResult) (db : DB) : OpResult DeckResponse :=
  match validateDeckReq req with
  | _ :: _ => ⟨.error .validation, db, 0⟩
  | [] =>
    let cached : Option DeckRow :=
      match req.forceRegenerate, optTruthy req.chapter with
      | false, some c =>
          newestMatch (fun r => r.createdAt)
            (deckCacheMatch u.id req.subject req.gradeLevel c) db.decks
      | _, _ => none
    match cached with
    | some deck =>
        ⟨.ok ⟨deck, .fromDb (sortByKey (fun s => s.slideOrder)
            (db.slides.filter (fun s => s.deckId == deck.id)))⟩, db, 0⟩
    | none =>
      match cfg with
      | none =>
          ⟨.error (.appError "AI service is not configured. Please contact administrator."
            500 "AI_SERVICE_NOT_CONFIGURED"), db, 0⟩
      | some _ =>
        match svc with
        | .err detail _ =>
            ⟨.error (.appError
              (detail.getD "AI service temporarily unavailable. Please try again later.")
              503 "AI_SERVICE_ERROR"), db, 1⟩
        | .ok g =>
            let deck : DeckRow :=
              { id := db.nextId, title := g.title, subject := req.subject,
                gradeLevel := req.gradeLevel, createdBy := u.id, schoolId := u.schoolId,
                sourceTopics := req.topics, sourceChapter := req.chapter,
                createdAt := db.now, updatedAt := db.now }
            let db1 : DB :=
              { db with decks := db.decks ++ [deck], nextId := db.nextId + 1,
                        now := db.now + 1 }
            ⟨.ok ⟨deck, .fromService g.slides⟩, insertSlides deck.id g.slides db1, 1⟩

/-- Body of `POST /teacher/activity/generate`. -/
structure ActivityGenReq where
  topic : String
  subject : String
  duration : Int
  activityType : String
  gradeLevel : String
  forceRegenerate : Bool
deriving Repr, DecidableEq

/-- Route validators for activity generation: `topic`, `subject`,
`activityType`, `gradeLevel` non-empty after trim; `duration` an int ≥ 5. -/
def validateActivityReq (req : ActivityGenReq) : List String :=
  (if strTrim req.topic == "" then ["topic"] else []) ++
  (if strTrim req.subject == "" then ["subject"] else []) ++
  (if req.duration < 5 then ["duration"] else []) ++
  (if strTrim req.activityType == "" then ["activityType"] else []) ++
  (if strTrim req.gradeLevel == "" then ["gradeLevel"] else [])

/-- Activity cache filter:
`created_by = $1 AND subject = $2 AND activity_type = $3 AND source_topic = $4`
(note: no grade-level condition — the table has no such column). -/
def activityCacheMatch (uid subject activityType topic : String) (r : ActivityRow) : Bool :=
  r.createdBy == uid && r.subject == subject && r.activityType == activityType &&
    r.sourceTopic == topic

/-- `generateActivity` (part_002): smart cache on
(created_by, subject, activity_type, source_topic); both the hit and the miss
paths answer with the formatted activity built from the stored row and the
request's `gradeLevel` and `topic`. -/
def generateActivity (cfg : Option String) (u : UserCtx) (req : ActivityGenReq)
    (svc : ExtOutcome ActivityGenResult) (db : DB) : OpResult FormattedActivity :=
  match validateActivityReq req with
  | _ :: _ => ⟨.error .validation, db, 0⟩
  | [] =>
    let cached : Option ActivityRow :=
      if req.forceRegenerate then none
      else newestMatch (fun r => r.createdAt)
        (activityCacheMatch u.id req.subject req.activityType req.topic) db.activities
    match cached with
    | some row => ⟨.ok (formatActivity row req.gradeLevel req.topic), db, 0⟩
    | none =>
      match cfg with
      | none =>
          ⟨.error (.appError "AI service is not configured. Please contact administrator."
            500 "AI_SERVICE_NOT_CONFIGURED"), db, 0⟩
      | some _ =>
        match svc with
        | .err detail _ =>
            ⟨.error (.appError
              (detail.getD "AI service temporarily unavailable. Please try again later.")
              503 "AI_SERVICE_ERROR"), db, 1⟩
        | .ok a =>
            let row : ActivityRow :=
              { id := db.nextId, title := a.title, subject := req.subject,
                activityType := req.activityType, duration := req.duration,
                materials := a.materials, steps := a.steps,
                learningOutcomes := a.learningOutcomes, createdBy := u.id,
                schoolId := u.schoolId, sourceTopic := req.topic, createdAt := db.now }
            let db1 : DB :=
              { db with activities := db.activities ++ [row], nextId := db.nextId + 1,
                        now := db.now + 1 }
            ⟨.ok (formatActivity row req.gradeLevel req.topic), db1, 1⟩

/-- Body of `POST /teacher/lesson-plan/generate`. -/
structure LPGenReq where
  topics : List String
  subject : String
  gradeLevel : String
  totalDuration : Int
  forceRegenerate : Bool
deriving Repr, DecidableEq

/-- Route validators for lesson-plan generation. -/
def validateLPReq (req : LPGenReq) : List String :=
  (if req.topics.isEmpty then ["topics"] else []) ++
  (if strTrim req.subject == "" then ["subject"] else []) ++
  (if strTrim req.gradeLevel == "" then ["gradeLevel"] else []) ++
  (if req.totalDuration < 30 then ["totalDuration"] else [])

/-- Lesson-plan cache filter:
`created_by = $1 AND subject = $2 AND grade_level = $3 AND source_topics = $4`
(Postgres array equality: element-wise and order-sensitive). -/
def lpCacheMatch (uid subject grade : String) (topics : List String)
    (r : LessonPlanRow) : Bool :=
  r.createdBy == uid && r.subject == subject && r.gradeLevel == grade &&
    r.sourceTopics == topics

/-- `generateLessonPlan` (part_002): smart cache on source_topics array
equality; hit and miss both answer with the stored row. -/
def generateLessonPlan (cfg : Option String) (u : UserCtx) (req : LPGenReq)
    (svc : ExtOutcome LPGenResult) (db : DB) : OpResult LessonPlanRow :=
  match validateLPReq req with
  | _ :: _ => ⟨.error .validation, db, 0⟩
  | [] =>
    let cached : Option LessonPlanRow :=
      if req.forceRegenerate then none
      else newestMatch (fun r => r.createdAt)
        (lpCacheMatch u.id req.subject req.gradeLevel req.topics) db.lessonPlans
    match cached with
    | some row => ⟨.ok row, db, 0⟩
    | none =>
      match cfg with
      | none =>
          ⟨.error (.appError "AI service is not configured. Please contact administrator."
            500 "AI_SERVICE_NOT_CONFIGURED"), db, 0⟩
      | some _ =>
        match svc with
        | .err detail _ =>
            ⟨.error (.appError
              (detail.getD "AI service temporarily unavailable. Please try again later.")
              503 "AI_SERVICE_ERROR"), db, 1⟩
        | .ok g =>
            let row : LessonPlanRow :=
              { id := db.nextId, title := g.title, subject := req.subject,
                gradeLevel := req.gradeLevel, duration := req.totalDuration,
                objectives := g.objectives, concepts := g.concepts,
                sequence := g.sequence, assessments := g.assessments,
                resources := g.resources, createdBy := u.id, schoolId := u.schoolId,
                sourceTopics := req.topics, createdAt := db.now, updatedAt := db.now }
            let db1 : DB :=
              { db with lessonPlans := db.lessonPlans ++ [row],
                        nextId := db.nextId + 1, now := db.now + 1 }
            ⟨.ok row, db1, 1⟩

/-- Body of `POST /teacher/topic/generate`
(`classDuration` defaults to 40; `numSlides` is only validated). -/
structure TopicGenReq where
  topic : String
  subject : String
  gradeLevel : String
  classDuration : Int
  numSlides : Option Int
  forceRegenerate : Bool
deriving Repr, DecidableEq

/-- Route validators for topic generation: `topic`, `subject`, `gradeLevel`
non-empty after trim; optional `numSlides` an int in 5..20. -/
def validateTopicReq (req : TopicGenReq) : List String :=
  (if strTrim req.topic == "" then ["topic"] else []) ++
  (if strTrim req.subject == "" then ["subject"] else []) ++
  (if strTrim req.gradeLevel == "" then ["gradeLevel"] else []) ++
  (match req.numSlides with
   | none => []
   | some n => if 5 ≤ n ∧ n ≤ 20 then [] else ["numSlides"])

/-- Topic cache filter:
`created_by = $1 AND subject = $2 AND grade_level = $3 AND source_topic = $4`. -/
def topicCacheMatch (uid subject grade topic : String) (r : TopicRow) : Bool :=
  r.createdBy == uid && r.subject == subject && r.gradeLevel == grade &&
    r.sourceTopic == topic

/-- `generateTopic` (part_002, "Replica of Deck Generator"): smart cache on
source_topic, then the AI POST.  Unlike the other generators it performs NO
`AI_SERVICE_URL` configuration check and has no try/catch around the POST, so
the call is attempted even when `cfg` is `none` (against the base URL string
"undefined") and a failure surfaces through the generic error handler. -/
def generateTopic (cfg : Option String) (u : UserCtx) (req : TopicGenReq)
    (svc : ExtOutcome DeckGenResult) (db : DB) : OpResult TopicResponse :=
  match validateTopicReq req with
  | _ :: _ => ⟨.error .validation, db, 0⟩
  | [] =>
    let cached : Option TopicRow :=
      if req.forceRegenerate then none
      else newestMatch (fun r => r.createdAt)
        (topicCacheMatch u.id req.subject req.gradeLevel req.topic) db.topics
    match cached with
    | some t =>
        ⟨.ok ⟨t, .fromDb (sortByKey (fun i => i.itemOrder)
            (db.topicItems.filter (fun i => i.topicId == t.id)))⟩, db, 0⟩
    | none =>
      match svc with
      | .err _ message => ⟨.error (.internal message), db, 1⟩
      | .ok g =>
          let t : TopicRow :=
            { id := db.nextId, title := g.title, subject := req.subject,
              gradeLevel := req.gradeLevel, createdBy := u.id, schoolId := u.schoolId,
              sourceTopic := req.topic, createdAt := db.now, updatedAt := db.now }
          let db1 : DB :=
            { db with topics := db.topics ++ [t], nextId := db.nextId + 1,
                      now := db.now + 1 }
          ⟨.ok ⟨t, .fromService g.slides⟩, insertTopicItems t.id g.slides db1, 1⟩

/-- `updateDeckWithAI` (part_002): fetch the deck (NULL-aware school filter),
fetch the slides to build the AI payload (the outcome is an oracle, so the
payload itself is not tracked), call the AI modify endpoint inside try/catch,
and only on success overwrite the title, delete all old slides and insert the
returned replacement set. -/
def updateDeckWithAI (u : UserCtx) (id : Nat) (svc : ExtOutcome DeckGenResult)
    (db : DB) : OpResult String :=
  match db.decks.find? (fun d => d.id == id && schoolMatch d.schoolId u.schoolId) with
  | none => ⟨.error (.appError "Deck not found" 404 "DECK_NOT_FOUND"), db, 0⟩
  | some _ =>
    match svc with
    | .err detail _ =>
        ⟨.error (.appError (detail.getD "AI service failed to modify deck")
          500 "AI_SERVICE_ERROR"), db, 1⟩
    | .ok g =>
        let db1 : DB :=
          { db with
            decks := db.decks.map (fun d =>
              if d.id == id then { d with title := g.title, updatedAt := db.now } else d),
            slides := db.slides.filter (fun s => !(s.deckId == id)) }
        ⟨.ok "Deck updated with AI successfully", insertSlides id g.slides db1, 1⟩

/-- `updateTopicWithAI` (part_002): the topic clone of `updateDeckWithAI`. -/
def updateTopicWithAI (u : UserCtx) (id : Nat) (svc : ExtOutcome DeckGenResult)
    (db : DB) : OpResult String :=
  match db.topics.find? (fun t => t.id == id && schoolMatch t.schoolId u.schoolId) with
  | none => ⟨.error (.appError "Topic not found" 404 "TOPIC_NOT_FOUND"), db, 0⟩
  | some _ =>
    match svc with
    | .err detail _ =>
        ⟨.error (.appError (detail.getD "AI service failed to modify topic")
          500 "AI_SERVICE_ERROR"), db, 1⟩
    | .ok g =>
        let db1 : DB :=
          { db with
            topics := db.topics.map (fun t =>
              if t.id == id then { t with title := g.title, updatedAt := db.now } else t),
            topicItems := db.topicItems.filter (fun i => !(i.topicId == id)) }
        ⟨.ok "Topic updated with AI successfully", insertTopicItems id g.slides db1, 1⟩

/-- One entry of the `slides` array accepted by `updateDeck`. -/
structure SlideUpdate where
  id : Nat
  title : String
  content : String
deriving Repr, DecidableEq

/-- The per-slide update loop of `updateDeck`:
`UPDATE slides SET title = $1, content = $2 WHERE id = $3` for each entry
(no ownership filter at all on the slide updates). -/
def applySlideUpdates : List SlideUpdate → List SlideRow → List SlideRow
  | [], rows => rows
  | upd :: rest, rows =>
      applySlideUpdates rest (rows.map (fun s =>
        if s.id == upd.id then { s with title := upd.title, content := upd.content } else s))

/-- `updateDeck` (part_002):
`UPDATE decks SET title = $1, updated_at = NOW() WHERE id = $2 AND school_id = $3`
(plain SQL equality, never satisfied when the caller's school_id is NULL),
then the optional slide loop, then an unconditional success message. -/
def updateDeck (u : UserCtx) (id : Nat) (title : String)
    (slides : Option (List SlideUpdate)) (db : DB) : OpResult String :=
  let db1 : DB :=
    { db with decks := db.decks.map (fun d =>
        if d.id == id && sqlEqNull d.schoolId u.schoolId then
          { d with title := title, updatedAt := db.now } else d) }
  let db2 : DB :=
    match slides with
    | none => db1
    | some ss => { db1 with slides := applySlideUpdates ss db1.slides }
  ⟨.ok "Deck updated successfully", db2, 0⟩

/-- `deleteDeck` (part_002): `DELETE FROM decks WHERE id = $1 AND school_id = $2`
(plain SQL equality), then an unconditional success message. -/
def deleteDeck (u : UserCtx) (id : Nat) (db : DB) : OpResult String :=
  ⟨.ok "Deck deleted successfully",
    { db with decks := db.decks.filter (fun d =>
        !(d.id == id && sqlEqNull d.schoolId u.schoolId)) }, 0⟩

/-- `deleteActivity` (part_002): same pattern on the `activities` table. -/
def deleteActivity (u : UserCtx) (id : Nat) (db : DB) : OpResult String :=
  ⟨.ok "Activity deleted successfully",
    { db with activities := db.activities.filter (fun a =>
        !(a.id == id && sqlEqNull a.schoolId u.schoolId)) }, 0⟩

/-- `deleteTopic` (part_002): same pattern on the `topics` table. -/
def deleteTopic (u : UserCtx) (id : Nat) (db : DB) : OpResult String :=
  ⟨.ok "Topic deleted successfully",
    { db with topics := db.topics.filter (fun t =>
        !(t.id == id && sqlEqNull t.schoolId u.schoolId)) }, 0⟩

end Teacher

/-! ## The legacy teacher controller (title-substring cache matching) -/

namespace Legacy

/-- Body of the legacy `POST /teacher/deck/generate`:
`{topic, subject, gradeLevel, numSlides = 10, forceRegenerate = false}`. -/
structure DeckGenReq where
  topic : String
  subject : String
  gradeLevel : String
  numSlides : Option Int
  forceRegenerate : Bool
deriving Repr, DecidableEq

/-- Legacy route validators: `topic`, `subject`, `gradeLevel` non-empty after
trim; optional `numSlides` an int in 5..20. -/
def validateDeckReq (req : DeckGenReq) : List String :=
  (if strTrim req.topic == "" then ["topic"] else []) ++
  (if strTrim req.subject == "" then ["subject"] else []) ++
  (if strTrim req.gradeLevel == "" then ["gradeLevel"] else []) ++
  (match req.numSlides with
   | none => []
   | some n => if 5 ≤ n ∧ n ≤ 20 then [] else ["numSlides"])

/-- Legacy deck cache filter:
`created_by = $1 AND subject = $2 AND grade_level = $3 AND title ILIKE $4`
with the pattern `'%' + topic + '%'`. -/
def deckCacheMatch (uid subject grade topic : String) (r : DeckRow) : Bool :=
  r.createdBy == uid && r.subject == subject && r.gradeLevel == grade &&
    ilikeContains r.title topic

/-- The legacy `generateDeck`: cache lookup by title substring, then a direct
AI POST with no configuration check and no try/catch (a failure propagates to
the generic error handler).  The insert stores no source-tracking columns. -/
def generateDeck (cfg : Option String) (u : UserCtx) (req : DeckGenReq)
    (svc : ExtOutcome DeckGenResult) (db : DB) : OpResult DeckResponse :=
  match validateDeckReq req with
  | _ :: _ => ⟨.error .validation, db, 0⟩
  | [] =>
    let cached : Option DeckRow :=
      if req.forceRegenerate then none
      else newestMatch (fun r => r.createdAt)
        (deckCacheMatch u.id req.subject req.gradeLevel req.topic) db.decks
    match cached with
    | some deck =>
        ⟨.ok ⟨deck, .fromDb (sortByKey (fun s => s.slideOrder)
            (db.slides.filter (fun s => s.deckId == deck.id)))⟩, db, 0⟩
    | none =>
      match svc with
      | .err _ message => ⟨.error (.internal message), db, 1⟩
      | .ok g =>
          let deck : DeckRow :=
            { id := db.nextId, title := g.title, subject := req.subject,
              gradeLevel := req.gradeLevel, createdBy := u.id, schoolId := u.schoolId,
              sourceTopics := [], sourceChapter := none,
              createdAt := db.now, updatedAt := db.now }
          let db1 : DB :=
            { db with decks := db.decks ++ [deck], nextId := db.nextId + 1,
                      now := db.now + 1 }
          ⟨.ok ⟨deck, .fromService g.slides⟩, insertSlides deck.id g.slides db1, 1⟩

end Legacy

/-! ## `aiGenerate` (src/services/ai.service.ts) -/

/-- Failure modes of the axios POST inside `aiGenerate`: the error code
checked by the handler, or an HTTP error response with its status and the
error's `message`, or any other error with its `message`. -/
inductive AxiosErr where
  | connRefused
  | timedOut
  | connAborted
  | httpStatus (status : Nat) (message : String)
  | other (message : String)
deriving Repr, DecidableEq

/-- Outcome of the POST in `aiGenerate`: axios resolves only on a 2xx
response (anything else rejects with an `AxiosErr`). -/
inductive HttpResult where
  | ok (data : String)
  | fail (e : AxiosErr)
deriving Repr, DecidableEq

/-- The `AIResponse` object: `{success, data?, message?}`. -/
structure AIResponse where
  success : Bool
  data : Option String
  message : Option String
deriving Repr, DecidableEq

/-- `aiGenerate`: when unconfigured return a graceful failure without calling;
otherwise map the POST's outcome, never throwing.  JS `err.message || default`
sends the empty message to the default string. -/
def aiGenerate (baseUrl : Option String) (outcome : HttpResult) : AIResponse :=
  match baseUrl with
  | none => ⟨false, none, some "AI service not configured"⟩
  | some _ =>
    match outcome with
    | .ok d => ⟨true, some d, none⟩
    | .fail .connRefused => ⟨false, none, some "AI service connection refused. Is it running?"⟩
    | .fail .timedOut => ⟨false, none, some "AI service request timed out"⟩
    | .fail .connAborted => ⟨false, none, some "AI service request timed out"⟩
    | .fail (.httpStatus status m) =>
        if status == 503 then ⟨false, none, some "AI service temporarily unavailable"⟩
        else ⟨false, none, some (if m == "" then "AI service error occurred" else m)⟩
    | .fail (.other m) =>
        ⟨false, none, some (if m == "" then "AI service error occurred" else m)⟩

/-! ## Response key structure (what `res.json` serialises) -/

/-- Columns of the `topics` table, as returned by `SELECT *` / `RETURNING *`. -/
def topicRowKeys : List String :=
  ["id", "title", "subject", "grade_level", "created_by", "school_id",
   "created_at", "updated_at", "source_topic"]

/-- Columns of the `topic_items` table. -/
def topicItemRowKeys : List String :=
  ["id", "topic_id", "title", "content", "item_order", "created_at"]

/-- Fields of one slide object as the AI service returns it. -/
def serviceSlideKeys : List String := ["title", "content", "order"]

/-- Key lists of the objects in the `slides` array of a topic response:
stored rows carry the table's columns, service slides carry the service's
fields. -/
def topicSlidesShape : TopicItemsPayload → List (List String)
  | .fromDb rows => rows.map (fun _ => topicItemRowKeys)
  | .fromService ss => ss.map (fun _ => serviceSlideKeys)

/-- Key structure of the topic response body `{...topicData, slides}`:
top-level keys and the per-slide key lists. -/
def topicResponseShape (r : TopicResponse) : List String × List (List String) :=
  (topicRowKeys ++ ["slides"], topicSlidesShape r.slides)

/-- Fields of the formatted activity body (same on cache hit and miss). -/
def formattedActivityKeys : List String :=
  ["title", "description", "instructions", "materials", "duration", "subject", "gradeLevel"]

/-! ## Projections used by the claims -/

/-- The deck row carried by a successful deck-generation response
(the `id` callers observe). -/
def respDeck (r : OpResult DeckResponse) : Option DeckRow :=
  match r.resp with
  | .ok p => some p.deck
  | .error _ => none

/-- The topic row carried by a successful topic-generation response. -/
def respTopic (r : OpResult TopicResponse) : Option TopicRow :=
  match r.resp with
  | .ok p => some p.topic
  | .error _ => none

/-- The lesson-plan row carried by a successful response. -/
def respLP (r : OpResult LessonPlanRow) : Option LessonPlanRow :=
  match r.resp with
  | .ok p => some p
  | .error _ => none

/-! ## Claim theorems -/

theorem sqlEqNull_none_right (a : Option String) : sqlEqNull a none = false := by
  cases a <;> rfl

/-- C10: when the caller's school_id is NULL, the `school_id = $2` predicate
of deleteDeck, deleteActivity, deleteTopic and updateDeck matches no row, so
the artifact rows are untouched, yet each handler still answers with its
success message. -/
theorem c10_null_school_id_noop (u : UserCtx) (iD iA iT iU : Nat) (title : String)
    (slides : Option (List Teacher.SlideUpdate)) (db : DB)
    (h : u.schoolId = none) :
    ((Teacher.deleteDeck u iD db).db.decks = db.decks ∧
      (Teacher.deleteDeck u iD db).resp = .ok "Deck deleted successfully") ∧
    ((Teacher.deleteActivity u iA db).db.activities = db.activities ∧
      (Teacher.deleteActivity u iA db).resp = .ok "Activity deleted successfully") ∧
    ((Teacher.deleteTopic u iT db).db.topics = db.topics ∧
      (Teacher.deleteTopic u iT db).resp = .ok "Topic deleted successfully") ∧
    ((Teacher.updateDeck u iU title slides db).db.decks = db.decks ∧
      (Teacher.updateDeck u iU title slides db).resp = .ok "Deck updated successfully") := by
  refine ⟨⟨?_, rfl⟩, ⟨?_, rfl⟩, ⟨?_, rfl⟩, ⟨?_, ?_⟩⟩
  · simp [Teacher.deleteDeck, h, sqlEqNull_none_right]
  · simp [Teacher.deleteActivity, h, sqlEqNull_none_right]
  · simp [Teacher.deleteTopic, h, sqlEqNull_none_right]
  · cases slides <;> simp [Teacher.updateDeck, h, sqlEqNull_none_right]
  · cases slides <;> simp [Teacher.updateDeck, h, sqlEqNull_none_right]

/-- C10 witness: a caller with NULL school_id deleting / updating an
existing deck of theirs leaves the rows in place. -/
theorem c10_witness :
    ((Teacher.deleteDeck ⟨"u1", none⟩ 0
        { emptyDB with
          decks := [⟨0, "T", "Ph", "10", "u1", none, [], none, 0, 0⟩] }).db.decks =
      [⟨0, "T", "Ph", "10", "u1", none, [], none, 0, 0⟩] ∧
      (Teacher.deleteDeck ⟨"u1", none⟩ 0
        { emptyDB with
          decks := [⟨0, "T", "Ph", "10", "u1", none, [], none, 0, 0⟩] }).resp =
        .ok "Deck deleted successfully") ∧
    ((Teacher.deleteActivity ⟨"u1", none⟩ 0
        { emptyDB with
          decks := [⟨0, "T", "Ph", "10", "u1", none, [], none, 0, 0⟩] }).db.activities = [] ∧
      (Teacher.deleteActivity ⟨"u1", none⟩ 0
        { emptyDB with
          decks := [⟨0, "T", "Ph", "10", "u1", none, [], none, 0, 0⟩] }).resp =
        .ok "Activity deleted successfully") ∧
    ((Teacher.deleteTopic ⟨"u1", none⟩ 0
        { emptyDB with
          decks := [⟨0, "T", "Ph", "10", "u1", none, [], none, 0, 0⟩] }).db.topics = [] ∧
      (Teacher.deleteTopic ⟨"u1", none⟩ 0
        { emptyDB with
          decks := [⟨0, "T", "Ph", "10", "u1", none, [], none, 0, 0⟩] }).resp =
        .ok "Topic deleted successfully") ∧
    ((Teacher.updateDeck ⟨"u1", none⟩ 0 "New" none
        { emptyDB with
          decks := [⟨0, "T", "Ph", "10", "u1", none, [], none, 0, 0⟩] }).db.decks =
      [⟨0, "T", "Ph", "10", "u1", none, [], none, 0, 0⟩] ∧
      (Teacher.updateDeck ⟨"u1", none⟩ 0 "New" none
        { emptyDB with
          decks := [⟨0, "T", "Ph", "10", "u1", none, [], none, 0, 0⟩] }).resp =
        .ok "Deck updated successfully") :=
  c10_null_school_id_noop ⟨"u1", none⟩ 0 0 0 0 "New" none
    { emptyDB with decks := [⟨0, "T", "Ph", "10", "u1", none, [], none, 0, 0⟩] } rfl

/-- C9: `aiGenerate` is total (never throws); on every failure mode it
returns success = false with a non-empty message, and on a 2xx response it
returns success = true with the data. -/
theorem c9_aiGenerate_graceful (baseUrl : Option String) (outcome : HttpResult) :
    ((aiGenerate baseUrl outcome).success = false →
      ∃ m, (aiGenerate baseUrl outcome).message = some m ∧ m ≠ "") ∧
    (∀ url d, baseUrl = some url → outcome = .ok d →
      aiGenerate baseUrl outcome = ⟨true, some d, none⟩) ∧
    ((aiGenerate baseUrl outcome).success = true →
      ∃ d, outcome = .ok d ∧ (aiGenerate baseUrl outcome).data = some d) := by
  refine ⟨?_, ?_, ?_⟩
  · intro hs
    cases baseUrl with
    | none => exact ⟨"AI service not configured", rfl, by decide⟩
    | some url0 =>
        cases outcome with
        | ok d => simp [aiGenerate] at hs
        | fail e =>
            cases e with
            | connRefused =>
                exact ⟨"AI service connection refused. Is it running?", rfl, by decide⟩
            | timedOut => exact ⟨"AI service request timed out", rfl, by decide⟩
            | connAborted => exact ⟨"AI service request timed out", rfl, by decide⟩
            | httpStatus status m =>
                by_cases h503 : (status == 503) = true
                · exact ⟨"AI service temporarily unavailable",
                    by simp [aiGenerate, h503], by decide⟩
                · by_cases hm : (m == "") = true
                  · exact ⟨"AI service error occurred",
                      by simp [aiGenerate, h503, hm], by decide⟩
                  · refine ⟨m, by simp [aiGenerate, h503, hm], ?_⟩
                    intro hme
                    rw [hme] at hm
                    exact hm (by decide)
            | other m =>
                by_cases hm : (m == "") = true
                · exact ⟨"AI service error occurred", by simp [aiGenerate, hm], by decide⟩
                · refine ⟨m, by simp [aiGenerate, hm], ?_⟩
                  intro hme
                  rw [hme] at hm
                  exact hm (by decide)
  · intro url d hu hd
    subst hu
    subst hd
    rfl
  · intro hs
    cases baseUrl with
    | none => simp [aiGenerate] at hs
    | some url0 =>
        cases outcome with
        | ok d => exact ⟨d, rfl, rfl⟩
        | fail e =>
            cases e with
            | connRefused => simp [aiGenerate] at hs
            | timedOut => simp [aiGenerate] at hs
            | connAborted => simp [aiGenerate] at hs
            | httpStatus status m =>
                by_cases h503 : (status == 503) = true
                · simp [aiGenerate, h503] at hs
                · by_cases hm : (m == "") = true
                  · simp [aiGenerate, h503, hm] at hs
                  · simp [aiGenerate, h503, hm] at hs
            | other m =>
                by_cases hm : (m == "") = true
                · simp [aiGenerate, hm] at hs
                · simp [aiGenerate, hm] at hs

/-- C9 witness: concrete success, missing-configuration and
empty-message-error inputs. -/
theorem c9_witness :
    aiGenerate (some "http://ai") (.ok "DATA") = ⟨true, some "DATA", none⟩ ∧
    (∃ m, (aiGenerate none (.ok "DATA")).message = some m ∧ m ≠ "") ∧
    (∃ m, (aiGenerate (some "http://ai") (.fail (.other ""))).message = some m ∧ m ≠ "") :=
  ⟨(c9_aiGenerate_graceful (some "http://ai") (.ok "DATA")).2.1 "http://ai" "DATA" rfl rfl,
   (c9_aiGenerate_graceful none (.ok "DATA")).1 (by decide),
   (c9_aiGenerate_graceful (some "http://ai") (.fail (.other ""))).1 (by decide)⟩

/-- C7 (code slip in `generateTopic`): with `AI_SERVICE_URL` unset and a
cache miss, `generateTopic` still attempts the external POST (extCalls = 1)
and surfaces the resulting network failure through the generic error handler
instead of the distinct AI_SERVICE_NOT_CONFIGURED error, while generateDeck,
generateActivity and generateLessonPlan do fail with the distinct error kind
without attempting a call. -/
theorem c7_topic_generator_missing_config_check :
    (Teacher.generateTopic none ⟨"u1", none⟩ ⟨"Optics", "Physics", "10", 40, none, false⟩
        (.err none "getaddrinfo ENOTFOUND undefined") emptyDB).extCalls = 1 ∧
    (Teacher.generateTopic none ⟨"u1", none⟩ ⟨"Optics", "Physics", "10", 40, none, false⟩
        (.err none "getaddrinfo ENOTFOUND undefined") emptyDB).resp =
      .error (.internal "getaddrinfo ENOTFOUND undefined") ∧
    (Teacher.generateDeck none ⟨"u1", none⟩ ⟨["Optics"], "Physics", "10", some "Light", false⟩
        (.err none "x") emptyDB).extCalls = 0 ∧
    (Teacher.generateDeck none ⟨"u1", none⟩ ⟨["Optics"], "Physics", "10", some "Light", false⟩
        (.err none "x") emptyDB).resp =
      .error (.appError "AI service is not configured. Please contact administrator."
        500 "AI_SERVICE_NOT_CONFIGURED") ∧
    (Teacher.generateActivity none ⟨"u1", none⟩ ⟨"Optics", "Physics", 30, "group", "10", false⟩
        (.err none "x") emptyDB).extCalls = 0 ∧
    (Teacher.generateActivity none ⟨"u1", none⟩ ⟨"Optics", "Physics", 30, "group", "10", false⟩
        (.err none "x") emptyDB).resp =
      .error (.appError "AI service is not configured. Please contact administrator."
        500 "AI_SERVICE_NOT_CONFIGURED") ∧
    (Teacher.generateLessonPlan none ⟨"u1", none⟩ ⟨["Optics"], "Physics", "10", 45, false⟩
        (.err none "x") emptyDB).extCalls = 0 ∧
    (Teacher.generateLessonPlan none ⟨"u1", none⟩ ⟨["Optics"], "Physics", "10", 45, false⟩
        (.err none "x") emptyDB).resp =
      .error (.appError "AI service is not configured. Please contact administrator."
        500 "AI_SERVICE_NOT_CONFIGURED") := by decide

/-- The key structure of a successful topic-generation response body. -/
def respTopicShape (r : OpResult TopicResponse) :
    Option (List String × List (List String)) :=
  match r.resp with
  | .ok p => some (topicResponseShape p)
  | .error _ => none

/-- C8 counterexample: on the very same request tuple, the cache-miss
response and the subsequent cache-hit response have different shapes — the
miss embeds the service's slides (keys title/content/order) while the hit
embeds the stored rows (the `topic_items` columns), so a caller can tell a
hit from a miss. -/
theorem c8_counterexample :
    let u : UserCtx := ⟨"u1", none⟩
    let req : Teacher.TopicGenReq := ⟨"Optics", "Physics", "10", 40, none, false⟩
    let g : DeckGenResult := ⟨"T", [⟨"s1", "c1", 1⟩]⟩
    let r1 := Teacher.generateTopic (some "http://ai") u req (.ok g) emptyDB
    let r2 := Teacher.generateTopic (some "http://ai") u req (.ok g) r1.db
    r1.extCalls = 1 ∧ r2.extCalls = 0 ∧ respTopicShape r1 ≠ respTopicShape r2 := by decide

/-- C8 (amended): the top-level response shape (artifact columns plus a
"slides" array) is identical on hit and miss, but whenever there is at least
one slide the per-slide key lists differ between the stored-row form and the
service form. -/
theorem c8_amended_response_shape :
    (∀ r1 r2 : TopicResponse, (topicResponseShape r1).1 = (topicResponseShape r2).1) ∧
    (∀ (rows : List TopicItemRow) (ss : List Slide), rows ≠ [] → ss ≠ [] →
      topicSlidesShape (.fromDb rows) ≠ topicSlidesShape (.fromService ss)) := by
  refine ⟨fun r1 r2 => rfl, ?_⟩
  intro rows ss h1 h2 hEq
  cases rows with
  | nil => exact h1 rfl
  | cons r rs =>
      cases ss with
      | nil => exact h2 rfl
      | cons s ssx =>
          simp only [topicSlidesShape, List.map] at hEq
          injection hEq with hh _
          exact absurd hh (by decide)

/-- C8 witness: a one-row stored payload and a one-slide service payload
have different shapes. -/
theorem c8_witness :
    topicSlidesShape (.fromDb [⟨0, 0, "t", "c", 1⟩]) ≠
      topicSlidesShape (.fromService [⟨"t", "c", 1⟩]) :=
  c8_amended_response_shape.2 [⟨0, 0, "t", "c", 1⟩] [⟨"t", "c", 1⟩]
    (by decide) (by decide)

/-- C3 counterexample: two activity-generation requests identical except for
`gradeLevel` — the second (gradeLevel "12", never requested before) performs
no external call and is served from the artifact generated for gradeLevel
"10", so the activity cache lookup does not filter by gradeLevel. -/
theorem c3_counterexample :
    let u : UserCtx := ⟨"u1", none⟩
    let req10 : Teacher.ActivityGenReq := ⟨"Optics", "Physics", 30, "group", "10", false⟩
    let req12 : Teacher.ActivityGenReq := ⟨"Optics", "Physics", 30, "group", "12", false⟩
    let a : ActivityGenResult := ⟨"T", ["m"], ["s"], ["lo"]⟩
    let r1 := Teacher.generateActivity (some "http://ai") u req10 (.ok a) emptyDB
    let r2 := Teacher.generateActivity (some "http://ai") u req12 (.ok a) r1.db
    r1.extCalls = 1 ∧ r2.extCalls = 0 ∧
      r2.resp = .ok ⟨"T", "lo", ["s"], ["m"], "30 minutes", "Physics", "12"⟩ := by decide

/-- C3 (amended): each cache lookup filters by createdBy, subject and an
exact topic field, ordering by created_at descending and taking the first;
decks and topics additionally filter by gradeLevel, activities filter by
activityType instead of gradeLevel, and lesson plans compare source_topics by
order-sensitive array equality. -/
theorem c3_amended_cache_lookup_filters :
    (∀ (uid s g c : String) (r : DeckRow),
      Teacher.deckCacheMatch uid s g c r = true ↔
        (r.createdBy = uid ∧ r.subject = s ∧ r.gradeLevel = g ∧ r.sourceChapter = some c)) ∧
    (∀ (uid s ty t : String) (r : ActivityRow),
      Teacher.activityCacheMatch uid s ty t r = true ↔
        (r.createdBy = uid ∧ r.subject = s ∧ r.activityType = ty ∧ r.sourceTopic = t)) ∧
    (∀ (uid s g : String) (ts : List String) (r : LessonPlanRow),
      Teacher.lpCacheMatch uid s g ts r = true ↔
        (r.createdBy = uid ∧ r.subject = s ∧ r.gradeLevel = g ∧ r.sourceTopics = ts)) ∧
    (∀ (uid s g t : String) (r : TopicRow),
      Teacher.topicCacheMatch uid s g t r = true ↔
        (r.createdBy = uid ∧ r.subject = s ∧ r.gradeLevel = g ∧ r.sourceTopic = t)) ∧
    (∀ (p : DeckRow → Bool) (rows : List DeckRow) (r : DeckRow),
      newestMatch (fun x => x.createdAt) p rows = some r →
        p r = true ∧ r ∈ rows ∧ ∀ x ∈ rows, p x = true → x.createdAt ≤ r.createdAt) := by
  refine ⟨?_, ?_, ?_, ?_, ?_⟩
  · intro uid s g c r
    simp [Teacher.deckCacheMatch, and_assoc]
  · intro uid s ty t r
    simp [Teacher.activityCacheMatch, and_assoc]
  · intro uid s g ts r
    simp [Teacher.lpCacheMatch, and_assoc]
  · intro uid s g t r
    simp [Teacher.topicCacheMatch, and_assoc]
  · intro p rows r h
    exact newestMatch_sound (fun x => x.createdAt) p rows r h

/-- C3 witness: the lookup characterisation applied to a one-row decks table. -/
theorem c3_witness :
    Teacher.deckCacheMatch "u1" "Ph" "10" "Opt"
        ⟨0, "T", "Ph", "10", "u1", none, [], some "Opt", 5, 5⟩ = true ∧
    (⟨0, "T", "Ph", "10", "u1", none, [], some "Opt", 5, 5⟩ : DeckRow) ∈
      [(⟨0, "T", "Ph", "10", "u1", none, [], some "Opt", 5, 5⟩ : DeckRow)] ∧
    ∀ x ∈ [(⟨0, "T", "Ph", "10", "u1", none, [], some "Opt", 5, 5⟩ : DeckRow)],
      Teacher.deckCacheMatch "u1" "Ph" "10" "Opt" x = true →
        x.createdAt ≤ (⟨0, "T", "Ph", "10", "u1", none, [], some "Opt", 5, 5⟩ : DeckRow).createdAt :=
  c3_amended_cache_lookup_filters.2.2.2.2
    (Teacher.deckCacheMatch "u1" "Ph" "10" "Opt")
    [⟨0, "T", "Ph", "10", "u1", none, [], some "Opt", 5, 5⟩]
    ⟨0, "T", "Ph", "10", "u1", none, [], some "Opt", 5, 5⟩ (by decide)

/-- C4: when the AI modify call fails, updateDeckWithAI / updateTopicWithAI
fail with the external-service error (AI_SERVICE_ERROR, the upstream detail
when available) and the database is completely unchanged — the
delete-and-replace only happens after a successful external response. -/
theorem c4_no_mutation_on_ai_failure
    (u : UserCtx) (iD iT : Nat) (detailD detailT : Option String) (msgD msgT : String)
    (db : DB) (d0 : DeckRow) (t0 : TopicRow)
    (hd : db.decks.find? (fun d => d.id == iD && schoolMatch d.schoolId u.schoolId) = some d0)
    (ht : db.topics.find? (fun t => t.id == iT && schoolMatch t.schoolId u.schoolId) = some t0) :
    (Teacher.updateDeckWithAI u iD (.err detailD msgD) db).db = db ∧
    (Teacher.updateDeckWithAI u iD (.err detailD msgD) db).resp =
      .error (.appError (detailD.getD "AI service failed to modify deck")
        500 "AI_SERVICE_ERROR") ∧
    (Teacher.updateTopicWithAI u iT (.err detailT msgT) db).db = db ∧
    (Teacher.updateTopicWithAI u iT (.err detailT msgT) db).resp =
      .error (.appError (detailT.getD "AI service failed to modify topic")
        500 "AI_SERVICE_ERROR") := by
  refine ⟨?_, ?_, ?_, ?_⟩ <;>
    simp [Teacher.updateDeckWithAI, Teacher.updateTopicWithAI, hd, ht]

/-- C4 witness: a failing AI call on an existing deck and topic leaves the
one-deck one-topic database untouched. -/
theorem c4_witness :
    (Teacher.updateDeckWithAI ⟨"u1", none⟩ 0 (.err (some "boom") "err")
        { emptyDB with
          decks := [⟨0, "T", "Ph", "10", "u1", none, [], none, 0, 0⟩],
          topics := [⟨0, "T", "Ph", "10", "u1", none, "Opt", 0, 0⟩] }).db =
      { emptyDB with
        decks := [⟨0, "T", "Ph", "10", "u1", none, [], none, 0, 0⟩],
        topics := [⟨0, "T", "Ph", "10", "u1", none, "Opt", 0, 0⟩] } ∧
    (Teacher.updateDeckWithAI ⟨"u1", none⟩ 0 (.err (some "boom") "err")
        { emptyDB with
          decks := [⟨0, "T", "Ph", "10", "u1", none, [], none, 0, 0⟩],
          topics := [⟨0, "T", "Ph", "10", "u1", none, "Opt", 0, 0⟩] }).resp =
      .error (.appError ((some "boom").getD "AI service failed to modify deck")
        500 "AI_SERVICE_ERROR") ∧
    (Teacher.updateTopicWithAI ⟨"u1", none⟩ 0 (.err (some "boom") "err")
        { emptyDB with
          decks := [⟨0, "T", "Ph", "10", "u1", none, [], none, 0, 0⟩],
          topics := [⟨0, "T", "Ph", "10", "u1", none, "Opt", 0, 0⟩] }).db =
      { emptyDB with
        decks := [⟨0, "T", "Ph", "10", "u1", none, [], none, 0, 0⟩],
        topics := [⟨0, "T", "Ph", "10", "u1", none, "Opt", 0, 0⟩] } ∧
    (Teacher.updateTopicWithAI ⟨"u1", none⟩ 0 (.err (some "boom") "err")
        { emptyDB with
          decks := [⟨0, "T", "Ph", "10", "u1", none, [], none, 0, 0⟩],
          topics := [⟨0, "T", "Ph", "10", "u1", none, "Opt", 0, 0⟩] }).resp =
      .error (.appError ((some "boom").getD "AI service failed to modify topic")
        500 "AI_SERVICE_ERROR") :=
  c4_no_mutation_on_ai_failure ⟨"u1", none⟩ 0 0 (some "boom") (some "boom") "err" "err"
    { emptyDB with
      decks := [⟨0, "T", "Ph", "10", "u1", none, [], none, 0, 0⟩],
      topics := [⟨0, "T", "Ph", "10", "u1", none, "Opt", 0, 0⟩] }
    ⟨0, "T", "Ph", "10", "u1", none, [], none, 0, 0⟩
    ⟨0, "T", "Ph", "10", "u1", none, "Opt", 0, 0⟩ (by decide) (by decide)

theorem filter_after_filter_not {α : Type} (p : α → Bool) (l : List α) :
    (l.filter (fun a => !(p a))).filter p = [] := by
  induction l with
  | nil => rfl
  | cons x xs ih =>
      by_cases hx : p x = true
      · simp [List.filter_cons, hx, ih]
      · have hx2 : p x = false := by revert hx; cases p x <;> simp
        simp [List.filter_cons, hx2, ih]

theorem mkSlideRows_deckId (deckId : Nat) :
    ∀ (n : Nat) (ss : List Slide) (r : SlideRow),
      r ∈ mkSlideRows deckId n ss → r.deckId = deckId ∧ n ≤ r.id := by
  intro n ss
  induction ss generalizing n with
  | nil => intro r h; simp [mkSlideRows] at h
  | cons s rest ih =>
      intro r h
      simp only [mkSlideRows, List.mem_cons] at h
      rcases h with h | h
      · subst h; exact ⟨rfl, Nat.le_refl _⟩
      · have := ih (n + 1) r h
        exact ⟨this.1, Nat.le_trans (Nat.le_succ n) this.2⟩

theorem filter_mkSlideRows (deckId n : Nat) (ss : List Slide) :
    (mkSlideRows deckId n ss).filter (fun s => s.deckId == deckId) =
      mkSlideRows deckId n ss := by
  induction ss generalizing n with
  | nil => rfl
  | cons s rest ih => simp [mkSlideRows, List.filter_cons, ih]

theorem map_mkSlideRows (deckId n : Nat) (ss : List Slide) :
    (mkSlideRows deckId n ss).map (fun s => (s.title, s.content, s.slideOrder)) =
      ss.map (fun s => (s.title, s.content, s.order)) := by
  induction ss generalizing n with
  | nil => rfl
  | cons s rest ih => simp [mkSlideRows, ih]

theorem mkTopicItemRows_topicId (topicId : Nat) :
    ∀ (n : Nat) (ss : List Slide) (r : TopicItemRow),
      r ∈ mkTopicItemRows topicId n ss → r.topicId = topicId ∧ n ≤ r.id := by
  intro n ss
  induction ss generalizing n with
  | nil => intro r h; simp [mkTopicItemRows] at h
  | cons s rest ih =>
      intro r h
      simp only [mkTopicItemRows, List.mem_cons] at h
      rcases h with h | h
      · subst h; exact ⟨rfl, Nat.le_refl _⟩
      · have := ih (n + 1) r h
        exact ⟨this.1, Nat.le_trans (Nat.le_succ n) this.2⟩

theorem filter_mkTopicItemRows (topicId n : Nat) (ss : List Slide) :
    (mkTopicItemRows topicId n ss).filter (fun i => i.topicId == topicId) =
      mkTopicItemRows topicId n ss := by
  induction ss generalizing n with
  | nil => rfl
  | cons s rest ih => simp [mkTopicItemRows, List.filter_cons, ih]

theorem map_mkTopicItemRows (topicId n : Nat) (ss : List Slide) :
    (mkTopicItemRows topicId n ss).map (fun i => (i.title, i.content, i.itemOrder)) =
      ss.map (fun s => (s.title, s.content, s.order)) := by
  induction ss generalizing n with
  | nil => rfl
  | cons s rest ih => simp [mkTopicItemRows, ih]

/-- C5: after a successful AI-assisted update, the artifact's persisted
children are exactly the rows inserted from the service's returned set, in
the returned order, and no child row of the prior version survives. -/
theorem c5_replace_not_merge
    (u : UserCtx) (iD iT : Nat) (gD gT : DeckGenResult) (db : DB)
    (d0 : DeckRow) (t0 : TopicRow)
    (hd : db.decks.find? (fun d => d.id == iD && schoolMatch d.schoolId u.schoolId) = some d0)
    (ht : db.topics.find? (fun t => t.id == iT && schoolMatch t.schoolId u.schoolId) = some t0)
    (hwfS : ∀ s ∈ db.slides, s.id < db.nextId)
    (hwfI : ∀ i ∈ db.topicItems, i.id < db.nextId) :
    (((Teacher.updateDeckWithAI u iD (.ok gD) db).db.slides.filter
        (fun s => s.deckId == iD)).map (fun s => (s.title, s.content, s.slideOrder)) =
      gD.slides.map (fun s => (s.title, s.content, s.order))) ∧
    (∀ s ∈ db.slides, s.deckId = iD →
      s ∉ (Teacher.updateDeckWithAI u iD (.ok gD) db).db.slides) ∧
    (Teacher.updateDeckWithAI u iD (.ok gD) db).resp =
      .ok "Deck updated with AI successfully" ∧
    (((Teacher.updateTopicWithAI u iT (.ok gT) db).db.topicItems.filter
        (fun i => i.topicId == iT)).map (fun i => (i.title, i.content, i.itemOrder)) =
      gT.slides.map (fun s => (s.title, s.content, s.order))) ∧
    (∀ i ∈ db.topicItems, i.topicId = iT →
      i ∉ (Teacher.updateTopicWithAI u iT (.ok gT) db).db.topicItems) ∧
    (Teacher.updateTopicWithAI u iT (.ok gT) db).resp =
      .ok "Topic updated with AI successfully" := by
  have hslides : (Teacher.updateDeckWithAI u iD (.ok gD) db).db.slides =
      db.slides.filter (fun s => !(s.deckId == iD)) ++
        mkSlideRows iD db.nextId gD.slides := by
    simp [Teacher.updateDeckWithAI, hd, insertSlides_spec]
  have hitems : (Teacher.updateTopicWithAI u iT (.ok gT) db).db.topicItems =
      db.topicItems.filter (fun i => !(i.topicId == iT)) ++
        mkTopicItemRows iT db.nextId gT.slides := by
    simp [Teacher.updateTopicWithAI, ht, insertTopicItems_spec]
  refine ⟨?_, ?_, ?_, ?_, ?_, ?_⟩
  · rw [hslides, List.filter_append, filter_after_filter_not, filter_mkSlideRows]
    simp [map_mkSlideRows]
  · intro s hs hdid hmem
    rw [hslides] at hmem
    rcases List.mem_append.mp hmem with hm | hm
    · have := (List.mem_filter.mp hm).2
      simp [hdid] at this
    · have h1 := (mkSlideRows_deckId iD db.nextId gD.slides s hm).2
      have h2 := hwfS s hs
      omega
  · simp [Teacher.updateDeckWithAI, hd]
  · rw [hitems, List.filter_append, filter_after_filter_not, filter_mkTopicItemRows]
    simp [map_mkTopicItemRows]
  · intro i hi hdid hmem
    rw [hitems] at hmem
    rcases List.mem_append.mp hmem with hm | hm
    · have := (List.mem_filter.mp hm).2
      simp [hdid] at this
    · have h1 := (mkTopicItemRows_topicId iT db.nextId gT.slides i hm).2
      have h2 := hwfI i hi
      omega
  · simp [Teacher.updateTopicWithAI, ht]

/-- A small database holding one deck with one old slide and one topic with
one old item. -/
def oneDeckOneTopicDB : DB :=
  { decks := [⟨0, "T", "Ph", "10", "u1", none, [], none, 0, 0⟩]
  , slides := [⟨1, 0, "old", "oc", 1⟩]
  , activities := []
  , lessonPlans := []
  , topics := [⟨0, "T", "Ph", "10", "u1", none, "Opt", 0, 0⟩]
  , topicItems := [⟨2, 0, "oldi", "oc", 1⟩]
  , nextId := 5
  , now := 3 }

/-- C5 witness: replacing the single old slide / item with a two-element
service result on the sample database. -/
theorem c5_witness :
    (((Teacher.updateDeckWithAI ⟨"u1", none⟩ 0 (.ok ⟨"N", [⟨"n1", "c1", 1⟩, ⟨"n2", "c2", 2⟩]⟩)
        oneDeckOneTopicDB).db.slides.filter (fun s => s.deckId == 0)).map
        (fun s => (s.title, s.content, s.slideOrder)) =
      ([⟨"n1", "c1", 1⟩, ⟨"n2", "c2", 2⟩] : List Slide).map
        (fun s => (s.title, s.content, s.order))) ∧
    (∀ s ∈ oneDeckOneTopicDB.slides, s.deckId = 0 →
      s ∉ (Teacher.updateDeckWithAI ⟨"u1", none⟩ 0
        (.ok ⟨"N", [⟨"n1", "c1", 1⟩, ⟨"n2", "c2", 2⟩]⟩) oneDeckOneTopicDB).db.slides) ∧
    (Teacher.updateDeckWithAI ⟨"u1", none⟩ 0 (.ok ⟨"N", [⟨"n1", "c1", 1⟩, ⟨"n2", "c2", 2⟩]⟩)
        oneDeckOneTopicDB).resp = .ok "Deck updated with AI successfully" ∧
    (((Teacher.updateTopicWithAI ⟨"u1", none⟩ 0 (.ok ⟨"N", [⟨"n1", "c1", 1⟩, ⟨"n2", "c2", 2⟩]⟩)
        oneDeckOneTopicDB).db.topicItems.filter (fun i => i.topicId == 0)).map
        (fun i => (i.title, i.content, i.itemOrder)) =
      ([⟨"n1", "c1", 1⟩, ⟨"n2", "c2", 2⟩] : List Slide).map
        (fun s => (s.title, s.content, s.order))) ∧
    (∀ i ∈ oneDeckOneTopicDB.topicItems, i.topicId = 0 →
      i ∉ (Teacher.updateTopicWithAI ⟨"u1", none⟩ 0
        (.ok ⟨"N", [⟨"n1", "c1", 1⟩, ⟨"n2", "c2", 2⟩]⟩) oneDeckOneTopicDB).db.topicItems) ∧
    (Teacher.updateTopicWithAI ⟨"u1", none⟩ 0 (.ok ⟨"N", [⟨"n1", "c1", 1⟩, ⟨"n2", "c2", 2⟩]⟩)
        oneDeckOneTopicDB).resp = .ok "Topic updated with AI successfully" :=
  c5_replace_not_merge ⟨"u1", none⟩ 0 0
    ⟨"N", [⟨"n1", "c1", 1⟩, ⟨"n2", "c2", 2⟩]⟩ ⟨"N", [⟨"n1", "c1", 1⟩, ⟨"n2", "c2", 2⟩]⟩
    oneDeckOneTopicDB
    ⟨0, "T", "Ph", "10", "u1", none, [], none, 0, 0⟩
    ⟨0, "T", "Ph", "10", "u1", none, "Opt", 0, 0⟩
    (by decide) (by decide) (by decide) (by decide)

theorem validateDeckReq_ne_nil (req : Teacher.DeckGenReq)
    (h : strTrim req.subject = "" ∨ strTrim req.gradeLevel = "" ∨ req.topics = []) :
    Teacher.validateDeckReq req ≠ [] := by
  intro hEq
  rcases h with h | h | h <;> simp [Teacher.validateDeckReq, h] at hEq

theorem validateActivityReq_ne_nil (req : Teacher.ActivityGenReq)
    (h : strTrim req.subject = "" ∨ strTrim req.gradeLevel = "" ∨ strTrim req.topic = "") :
    Teacher.validateActivityReq req ≠ [] := by
  intro hEq
  rcases h with h | h | h <;> simp [Teacher.validateActivityReq, h] at hEq

theorem validateLPReq_ne_nil (req : Teacher.LPGenReq)
    (h : strTrim req.subject = "" ∨ strTrim req.gradeLevel = "" ∨ req.topics = []) :
    Teacher.validateLPReq req ≠ [] := by
  intro hEq
  rcases h with h | h | h <;> simp [Teacher.validateLPReq, h] at hEq

theorem validateTopicReq_ne_nil (req : Teacher.TopicGenReq)
    (h : strTrim req.subject = "" ∨ strTrim req.gradeLevel = "" ∨ strTrim req.topic = "") :
    Teacher.validateTopicReq req ≠ [] := by
  intro hEq
  rcases h with h | h | h <;> simp [Teacher.validateTopicReq, h] at hEq

/-- C6: a generation request missing subject, gradeLevel, or all topic
identifiers is answered with the validation error; the database is unchanged
and no external call is made. -/
theorem c6_validation_rejects_incomplete
    (cfg : Option String) (u : UserCtx) (db : DB)
    (reqD : Teacher.DeckGenReq) (svcD : ExtOutcome DeckGenResult)
    (reqA : Teacher.ActivityGenReq) (svcA : ExtOutcome ActivityGenResult)
    (reqL : Teacher.LPGenReq) (svcL : ExtOutcome LPGenResult)
    (reqT : Teacher.TopicGenReq) (svcT : ExtOutcome DeckGenResult)
    (hD : strTrim reqD.subject = "" ∨ strTrim reqD.gradeLevel = "" ∨ reqD.topics = [])
    (hA : strTrim reqA.subject = "" ∨ strTrim reqA.gradeLevel = "" ∨ strTrim reqA.topic = "")
    (hL : strTrim reqL.subject = "" ∨ strTrim reqL.gradeLevel = "" ∨ reqL.topics = [])
    (hT : strTrim reqT.subject = "" ∨ strTrim reqT.gradeLevel = "" ∨ strTrim reqT.topic = "") :
    Teacher.generateDeck cfg u reqD svcD db = ⟨.error .validation, db, 0⟩ ∧
    Teacher.generateActivity cfg u reqA svcA db = ⟨.error .validation, db, 0⟩ ∧
    Teacher.generateLessonPlan cfg u reqL svcL db = ⟨.error .validation, db, 0⟩ ∧
    Teacher.generateTopic cfg u reqT svcT db = ⟨.error .validation, db, 0⟩ := by
  refine ⟨?_, ?_, ?_, ?_⟩
  · cases hv : Teacher.validateDeckReq reqD with
    | nil => exact absurd hv (validateDeckReq_ne_nil reqD hD)
    | cons a l => simp [Teacher.generateDeck, hv]
  · cases hv : Teacher.validateActivityReq reqA with
    | nil => exact absurd hv (validateActivityReq_ne_nil reqA hA)
    | cons a l => simp [Teacher.generateActivity, hv]
  · cases hv : Teacher.validateLPReq reqL with
    | nil => exact absurd hv (validateLPReq_ne_nil reqL hL)
    | cons a l => simp [Teacher.generateLessonPlan, hv]
  · cases hv : Teacher.validateTopicReq reqT with
    | nil => exact absurd hv (validateTopicReq_ne_nil reqT hT)
    | cons a l => simp [Teacher.generateTopic, hv]

/-- C6 witness: requests with an empty subject (deck, lesson plan) or an
empty topic (activity, topic) are rejected without touching anything. -/
theorem c6_witness :
    Teacher.generateDeck (some "http://ai") ⟨"u1", none⟩
        ⟨["Optics"], "", "10", none, false⟩ (.ok ⟨"T", []⟩) emptyDB =
      ⟨.error .validation, emptyDB, 0⟩ ∧
    Teacher.generateActivity (some "http://ai") ⟨"u1", none⟩
        ⟨"", "Physics", 30, "group", "10", false⟩ (.ok ⟨"T", [], [], []⟩) emptyDB =
      ⟨.error .validation, emptyDB, 0⟩ ∧
    Teacher.generateLessonPlan (some "http://ai") ⟨"u1", none⟩
        ⟨[], "Physics", "10", 45, false⟩ (.ok ⟨"T", "o", "c", "s", "a", "r"⟩) emptyDB =
      ⟨.error .validation, emptyDB, 0⟩ ∧
    Teacher.generateTopic (some "http://ai") ⟨"u1", none⟩
        ⟨" ", "Physics", "10", 40, none, false⟩ (.ok ⟨"T", []⟩) emptyDB =
      ⟨.error .validation, emptyDB, 0⟩ :=
  c6_validation_rejects_incomplete (some "http://ai") ⟨"u1", none⟩ emptyDB
    ⟨["Optics"], "", "10", none, false⟩ (.ok ⟨"T", []⟩)
    ⟨"", "Physics", 30, "group", "10", false⟩ (.ok ⟨"T", [], [], []⟩)
    ⟨[], "Physics", "10", 45, false⟩ (.ok ⟨"T", "o", "c", "s", "a", "r"⟩)
    ⟨" ", "Physics", "10", 40, none, false⟩ (.ok ⟨"T", []⟩)
    (Or.inl (by decide)) (Or.inr (Or.inr (by decide)))
    (Or.inr (Or.inr (by decide))) (Or.inr (Or.inr (by decide)))

/-- C2: with forceRegenerate = true every generator skips the cache lookup,
invokes the external service exactly once, and inserts a fresh artifact row
whose id differs from every pre-existing artifact id — even when a matching
cached artifact exists (no hypothesis excludes one). -/
theorem c2_forced_bypass
    (url : String) (u : UserCtx) (db : DB)
    (reqD : Teacher.DeckGenReq) (gD : DeckGenResult)
    (reqA : Teacher.ActivityGenReq) (gA : ActivityGenResult)
    (reqL : Teacher.LPGenReq) (gL : LPGenResult)
    (reqT : Teacher.TopicGenReq) (gT : DeckGenResult)
    (hvD : Teacher.validateDeckReq reqD = []) (hfD : reqD.forceRegenerate = true)
    (hvA : Teacher.validateActivityReq reqA = []) (hfA : reqA.forceRegenerate = true)
    (hvL : Teacher.validateLPReq reqL = []) (hfL : reqL.forceRegenerate = true)
    (hvT : Teacher.validateTopicReq reqT = []) (hfT : reqT.forceRegenerate = true)
    (hidD : ∀ d ∈ db.decks, d.id < db.nextId)
    (hidA : ∀ a ∈ db.activities, a.id < db.nextId)
    (hidL : ∀ p ∈ db.lessonPlans, p.id < db.nextId)
    (hidT : ∀ t ∈ db.topics, t.id < db.nextId) :
    ((Teacher.generateDeck (some url) u reqD (.ok gD) db).extCalls = 1 ∧
      ∃ d, respDeck (Teacher.generateDeck (some url) u reqD (.ok gD) db) = some d ∧
        d.id = db.nextId ∧
        d ∈ (Teacher.generateDeck (some url) u reqD (.ok gD) db).db.decks ∧
        ∀ d0 ∈ db.decks, d0.id ≠ d.id) ∧
    ((Teacher.generateActivity (some url) u reqA (.ok gA) db).extCalls = 1 ∧
      ∃ row, row ∈ (Teacher.generateActivity (some url) u reqA (.ok gA) db).db.activities ∧
        row.id = db.nextId ∧
        (Teacher.generateActivity (some url) u reqA (.ok gA) db).resp =
          .ok (formatActivity row reqA.gradeLevel reqA.topic) ∧
        ∀ a0 ∈ db.activities, a0.id ≠ row.id) ∧
    ((Teacher.generateLessonPlan (some url) u reqL (.ok gL) db).extCalls = 1 ∧
      ∃ row, respLP (Teacher.generateLessonPlan (some url) u reqL (.ok gL) db) = some row ∧
        row.id = db.nextId ∧
        row ∈ (Teacher.generateLessonPlan (some url) u reqL (.ok gL) db).db.lessonPlans ∧
        ∀ p0 ∈ db.lessonPlans, p0.id ≠ row.id) ∧
    ((Teacher.generateTopic (some url) u reqT (.ok gT) db).extCalls = 1 ∧
      ∃ t, respTopic (Teacher.generateTopic (some url) u reqT (.ok gT) db) = some t ∧
        t.id = db.nextId ∧
        t ∈ (Teacher.generateTopic (some url) u reqT (.ok gT) db).db.topics ∧
        ∀ t0 ∈ db.topics, t0.id ≠ t.id) := by
  refine ⟨⟨?_, ?_⟩, ⟨?_, ?_⟩, ⟨?_, ?_⟩, ⟨?_, ?_⟩⟩
  · simp [Teacher.generateDeck, hvD, hfD]
  · refine ⟨⟨db.nextId, gD.title, reqD.subject, reqD.gradeLevel, u.id, u.schoolId,
      reqD.topics, reqD.chapter, db.now, db.now⟩, ?_, rfl, ?_, ?_⟩
    · simp [Teacher.generateDeck, hvD, hfD, respDeck]
    · simp [Teacher.generateDeck, hvD, hfD, insertSlides_spec]
    · intro d0 h0
      exact Nat.ne_of_lt (hidD d0 h0)
  · simp [Teacher.generateActivity, hvA, hfA]
  · refine ⟨⟨db.nextId, gA.title, reqA.subject, reqA.activityType, reqA.duration,
      gA.materials, gA.steps, gA.learningOutcomes, u.id, u.schoolId, reqA.topic,
      db.now⟩, ?_, rfl, ?_, ?_⟩
    · simp [Teacher.generateActivity, hvA, hfA]
    · simp [Teacher.generateActivity, hvA, hfA]
    · intro a0 h0
      exact Nat.ne_of_lt (hidA a0 h0)
  · simp [Teacher.generateLessonPlan, hvL, hfL]
  · refine ⟨⟨db.nextId, gL.title, reqL.subject, reqL.gradeLevel, reqL.totalDuration,
      gL.objectives, gL.concepts, gL.sequence, gL.assessments, gL.resources,
      u.id, u.schoolId, reqL.topics, db.now, db.now⟩, ?_, rfl, ?_, ?_⟩
    · simp [Teacher.generateLessonPlan, hvL, hfL, respLP]
    · simp [Teacher.generateLessonPlan, hvL, hfL]
    · intro p0 h0
      exact Nat.ne_of_lt (hidL p0 h0)
  · simp [Teacher.generateTopic, hvT, hfT]
  · refine ⟨⟨db.nextId, gT.title, reqT.subject, reqT.gradeLevel, u.id, u.schoolId,
      reqT.topic, db.now, db.now⟩, ?_, rfl, ?_, ?_⟩
    · simp [Teacher.generateTopic, hvT, hfT, respTopic]
    · simp [Teacher.generateTopic, hvT, hfT, insertTopicItems_spec]
    · intro t0 h0
      exact Nat.ne_of_lt (hidT t0 h0)

/-- A database that already holds one cached artifact of every kind matching
the sample requests (same requester, subject, grade, topic key). -/
def cachedAllDB : DB :=
  { decks := [⟨0, "T", "Ph", "10", "u1", none, ["Opt"], some "Opt", 0, 0⟩]
  , slides := []
  , activities := [⟨1, "T", "Ph", "group", 30, ["m"], ["s"], ["lo"], "u1", none, "Opt", 0⟩]
  , lessonPlans := [⟨2, "T", "Ph", "10", 45, "o", "c", "s", "a", "r", "u1", none, ["Opt"], 0, 0⟩]
  , topics := [⟨3, "T", "Ph", "10", "u1", none, "Opt", 0, 0⟩]
  , topicItems := []
  , nextId := 4
  , now := 1 }

/-- C2 witness: forced regeneration calls the service once for each kind even
though `cachedAllDB` already has a matching cached artifact of each kind. -/
theorem c2_witness :
    (Teacher.generateDeck (some "http://ai") ⟨"u1", none⟩
      ⟨["Opt"], "Ph", "10", some "Opt", true⟩
      (.ok ⟨"T2", [⟨"s", "c", 1⟩]⟩) cachedAllDB).extCalls = 1 ∧
    (Teacher.generateActivity (some "http://ai") ⟨"u1", none⟩
      ⟨"Opt", "Ph", 30, "group", "10", true⟩
      (.ok ⟨"T2", ["m"], ["s"], ["lo"]⟩) cachedAllDB).extCalls = 1 ∧
    (Teacher.generateLessonPlan (some "http://ai") ⟨"u1", none⟩
      ⟨["Opt"], "Ph", "10", 45, true⟩
      (.ok ⟨"T2", "o", "c", "s", "a", "r"⟩) cachedAllDB).extCalls = 1 ∧
    (Teacher.generateTopic (some "http://ai") ⟨"u1", none⟩
      ⟨"Opt", "Ph", "10", 40, none, true⟩
      (.ok ⟨"T2", [⟨"s", "c", 1⟩]⟩) cachedAllDB).extCalls = 1 := by
  have h := c2_forced_bypass "http://ai" ⟨"u1", none⟩ cachedAllDB
    ⟨["Opt"], "Ph", "10", some "Opt", true⟩ ⟨"T2", [⟨"s", "c", 1⟩]⟩
    ⟨"Opt", "Ph", 30, "group", "10", true⟩ ⟨"T2", ["m"], ["s"], ["lo"]⟩
    ⟨["Opt"], "Ph", "10", 45, true⟩ ⟨"T2", "o", "c", "s", "a", "r"⟩
    ⟨"Opt", "Ph", "10", 40, none, true⟩ ⟨"T2", [⟨"s", "c", 1⟩]⟩
    (by decide) (by decide) (by decide) (by decide) (by decide) (by decide)
    (by decide) (by decide) (by decide) (by decide) (by decide) (by decide)
  exact ⟨h.1.1, h.2.1.1, h.2.2.1.1, h.2.2.2.1⟩

theorem optTruthy_eq_some {o : Option String} {c : String}
    (h : optTruthy o = some c) : o = some c := by
  cases ho : o with
  | none => simp [ho, optTruthy] at h
  | some s =>
      rw [ho] at h
      simp only [optTruthy] at h
      by_cases hs : (s == "") = true
      · simp [hs] at h
      · simp [hs] at h
        rw [h]

theorem generateDeck_idem_aux
    (url : String) (u : UserCtx) (req : Teacher.DeckGenReq) (g : DeckGenResult)
    (svc2 : ExtOutcome DeckGenResult) (db : DB) (c : String)
    (hv : Teacher.validateDeckReq req = []) (hf : req.forceRegenerate = false)
    (hch : optTruthy req.chapter = some c)
    (hts : ∀ d ∈ db.decks, d.createdAt < db.now) :
    (∃ d1 d2,
      respDeck (Teacher.generateDeck (some url) u req (.ok g) db) = some d1 ∧
      respDeck (Teacher.generateDeck (some url) u req svc2
        (Teacher.generateDeck (some url) u req (.ok g) db).db) = some d2 ∧
      d1.id = d2.id) ∧
    (Teacher.generateDeck (some url) u req (.ok g) db).extCalls +
      (Teacher.generateDeck (some url) u req svc2
        (Teacher.generateDeck (some url) u req (.ok g) db).db).extCalls ≤ 1 := by
  have hchap : req.chapter = some c := optTruthy_eq_some hch
  cases hl : newestMatch (fun r => r.createdAt)
      (Teacher.deckCacheMatch u.id req.subject req.gradeLevel c) db.decks with
  | some deck =>
      have hdb1 : (Teacher.generateDeck (some url) u req (.ok g) db).db = db := by
        simp [Teacher.generateDeck, hv, hf, hch, hl]
      have hr : ∀ (svc : ExtOutcome DeckGenResult),
          respDeck (Teacher.generateDeck (some url) u req svc db) = some deck := by
        intro svc
        simp [Teacher.generateDeck, hv, hf, hch, hl, respDeck]
      have hec : ∀ (svc : ExtOutcome DeckGenResult),
          (Teacher.generateDeck (some url) u req svc db).extCalls = 0 := by
        intro svc
        simp [Teacher.generateDeck, hv, hf, hch, hl]
      refine ⟨⟨deck, deck, hr _, ?_, rfl⟩, ?_⟩
      · rw [hdb1]; exact hr svc2
      · rw [hdb1, hec, hec]
        decide
  | none =>
      have h1resp : respDeck (Teacher.generateDeck (some url) u req (.ok g) db) =
          some ⟨db.nextId, g.title, req.subject, req.gradeLevel, u.id, u.schoolId,
            req.topics, req.chapter, db.now, db.now⟩ := by
        simp [Teacher.generateDeck, hv, hf, hch, hl, respDeck]
      have h1ec : (Teacher.generateDeck (some url) u req (.ok g) db).extCalls = 1 := by
        simp [Teacher.generateDeck, hv, hf, hch, hl]
      have hmatch : Teacher.deckCacheMatch u.id req.subject req.gradeLevel c
          ⟨db.nextId, g.title, req.subject, req.gradeLevel, u.id, u.schoolId,
            req.topics, req.chapter, db.now, db.now⟩ = true := by
        simp [Teacher.deckCacheMatch, hchap]
      have hl2 : newestMatch (fun r => r.createdAt)
          (Teacher.deckCacheMatch u.id req.subject req.gradeLevel c)
          (db.decks ++ [⟨db.nextId, g.title, req.subject, req.gradeLevel, u.id, u.schoolId,
            req.topics, req.chapter, db.now, db.now⟩]) =
            some ⟨db.nextId, g.title, req.subject, req.gradeLevel, u.id, u.schoolId,
              req.topics, req.chapter, db.now, db.now⟩ :=
        newestMatch_append_newest _ _ db.decks _ hmatch (fun x hx => hts x hx)
      have h2resp : respDeck (Teacher.generateDeck (some url) u req svc2
          (Teacher.generateDeck (some url) u req (.ok g) db).db) =
            some ⟨db.nextId, g.title, req.subject, req.gradeLevel, u.id, u.schoolId,
              req.topics, req.chapter, db.now, db.now⟩ := by
        simp [Teacher.generateDeck, hv, hf, hch, hl, insertSlides_spec, hl2, respDeck]
      have h2ec : (Teacher.generateDeck (some url) u req svc2
          (Teacher.generateDeck (some url) u req (.ok g) db).db).extCalls = 0 := by
        simp [Teacher.generateDeck, hv, hf, hch, hl, insertSlides_spec, hl2]
      refine ⟨⟨_, _, h1resp, h2resp, rfl⟩, ?_⟩
      rw [h1ec, h2ec]

theorem generateTopic_idem_aux
    (url : String) (u : UserCtx) (req : Teacher.TopicGenReq) (g : DeckGenResult)
    (svc2 : ExtOutcome DeckGenResult) (db : DB)
    (hv : Teacher.validateTopicReq req = []) (hf : req.forceRegenerate = false)
    (hts : ∀ t ∈ db.topics, t.createdAt < db.now) :
    (∃ t1 t2,
      respTopic (Teacher.generateTopic (some url) u req (.ok g) db) = some t1 ∧
      respTopic (Teacher.generateTopic (some url) u req svc2
        (Teacher.generateTopic (some url) u req (.ok g) db).db) = some t2 ∧
      t1.id = t2.id) ∧
    (Teacher.generateTopic (some url) u req (.ok g) db).extCalls +
      (Teacher.generateTopic (some url) u req svc2
        (Teacher.generateTopic (some url) u req (.ok g) db).db).extCalls ≤ 1 := by
  cases hl : newestMatch (fun r => r.createdAt)
      (Teacher.topicCacheMatch u.id req.subject req.gradeLevel req.topic) db.topics with
  | some t =>
      have hdb1 : (Teacher.generateTopic (some url) u req (.ok g) db).db = db := by
        simp [Teacher.generateTopic, hv, hf, hl]
      have hr : ∀ (svc : ExtOutcome DeckGenResult),
          respTopic (Teacher.generateTopic (some url) u req svc db) = some t := by
        intro svc
        simp [Teacher.generateTopic, hv, hf, hl, respTopic]
      have hec : ∀ (svc : ExtOutcome DeckGenResult),
          (Teacher.generateTopic (some url) u req svc db).extCalls = 0 := by
        intro svc
        simp [Teacher.generateTopic, hv, hf, hl]
      refine ⟨⟨t, t, hr _, ?_, rfl⟩, ?_⟩
      · rw [hdb1]; exact hr svc2
      · rw [hdb1, hec, hec]
        decide
  | none =>
      have h1resp : respTopic (Teacher.generateTopic (some url) u req (.ok g) db) =
          some ⟨db.nextId, g.title, req.subject, req.gradeLevel, u.id, u.schoolId,
            req.topic, db.now, db.now⟩ := by
        simp [Teacher.generateTopic, hv, hf, hl, respTopic]
      have h1ec : (Teacher.generateTopic (some url) u req (.ok g) db).extCalls = 1 := by
        simp [Teacher.generateTopic, hv, hf, hl]
      have hmatch : Teacher.topicCacheMatch u.id req.subject req.gradeLevel req.topic
          ⟨db.nextId, g.title, req.subject, req.gradeLevel, u.id, u.schoolId,
            req.topic, db.now, db.now⟩ = true := by
        simp [Teacher.topicCacheMatch]
      have hl2 : newestMatch (fun r => r.createdAt)
          (Teacher.topicCacheMatch u.id req.subject req.gradeLevel req.topic)
          (db.topics ++ [⟨db.nextId, g.title, req.subject, req.gradeLevel, u.id, u.schoolId,
            req.topic, db.now, db.now⟩]) =
            some ⟨db.nextId, g.title, req.subject, req.gradeLevel, u.id, u.schoolId,
              req.topic, db.now, db.now⟩ :=
        newestMatch_append_newest _ _ db.topics _ hmatch (fun x hx => hts x hx)
      have h2resp : respTopic (Teacher.generateTopic (some url) u req svc2
          (Teacher.generateTopic (some url) u req (.ok g) db).db) =
            some ⟨db.nextId, g.title, req.subject, req.gradeLevel, u.id, u.schoolId,
              req.topic, db.now, db.now⟩ := by
        simp [Teacher.generateTopic, hv, hf, hl, insertTopicItems_spec, hl2, respTopic]
      have h2ec : (Teacher.generateTopic (some url) u req svc2
          (Teacher.generateTopic (some url) u req (.ok g) db).db).extCalls = 0 := by
        simp [Teacher.generateTopic, hv, hf, hl, insertTopicItems_spec, hl2]
      refine ⟨⟨_, _, h1resp, h2resp, rfl⟩, ?_⟩
      rw [h1ec, h2ec]

theorem generateActivity_idem_aux
    (url : String) (u : UserCtx) (req : Teacher.ActivityGenReq) (a : ActivityGenResult)
    (svc2 : ExtOutcome ActivityGenResult) (db : DB)
    (hv : Teacher.validateActivityReq req = []) (hf : req.forceRegenerate = false)
    (hts : ∀ r ∈ db.activities, r.createdAt < db.now) :
    (Teacher.generateActivity (some url) u req (.ok a) db).resp =
      (Teacher.generateActivity (some url) u req svc2
        (Teacher.generateActivity (some url) u req (.ok a) db).db).resp ∧
    (Teacher.generateActivity (some url) u req (.ok a) db).extCalls +
      (Teacher.generateActivity (some url) u req svc2
        (Teacher.generateActivity (some url) u req (.ok a) db).db).extCalls ≤ 1 := by
  cases hl : newestMatch (fun r => r.createdAt)
      (Teacher.activityCacheMatch u.id req.subject req.activityType req.topic)
      db.activities with
  | some row =>
      have hdb1 : (Teacher.generateActivity (some url) u req (.ok a) db).db = db := by
        simp [Teacher.generateActivity, hv, hf, hl]
      have hr : ∀ (svc : ExtOutcome ActivityGenResult),
          (Teacher.generateActivity (some url) u req svc db).resp =
            .ok (formatActivity row req.gradeLevel req.topic) := by
        intro svc
        simp [Teacher.generateActivity, hv, hf, hl]
      have hec : ∀ (svc : ExtOutcome ActivityGenResult),
          (Teacher.generateActivity (some url) u req svc db).extCalls = 0 := by
        intro svc
        simp [Teacher.generateActivity, hv, hf, hl]
      refine ⟨?_, ?_⟩
      · rw [hdb1, hr, hr]
      · rw [hdb1, hec, hec]
        decide
  | none =>
      have h1resp : (Teacher.generateActivity (some url) u req (.ok a) db).resp =
          .ok (formatActivity ⟨db.nextId, a.title, req.subject, req.activityType,
            req.duration, a.materials, a.steps, a.learningOutcomes, u.id, u.schoolId,
            req.topic, db.now⟩ req.gradeLevel req.topic) := by
        simp [Teacher.generateActivity, hv, hf, hl]
      have h1ec : (Teacher.generateActivity (some url) u req (.ok a) db).extCalls = 1 := by
        simp [Teacher.generateActivity, hv, hf, hl]
      have hmatch : Teacher.activityCacheMatch u.id req.subject req.activityType req.topic
          ⟨db.nextId, a.title, req.subject, req.activityType, req.duration, a.materials,
            a.steps, a.learningOutcomes, u.id, u.schoolId, req.topic, db.now⟩ = true := by
        simp [Teacher.activityCacheMatch]
      have hl2 : newestMatch (fun r => r.createdAt)
          (Teacher.activityCacheMatch u.id req.subject req.activityType req.topic)
          (db.activities ++ [⟨db.nextId, a.title, req.subject, req.activityType,
            req.duration, a.materials, a.steps, a.learningOutcomes, u.id, u.schoolId,
            req.topic, db.now⟩]) =
            some ⟨db.nextId, a.title, req.subject, req.activityType, req.duration,
              a.materials, a.steps, a.learningOutcomes, u.id, u.schoolId,
              req.topic, db.now⟩ :=
        newestMatch_append_newest _ _ db.activities _ hmatch (fun x hx => hts x hx)
      have h2resp : (Teacher.generateActivity (some url) u req svc2
          (Teacher.generateActivity (some url) u req (.ok a) db).db).resp =
            .ok (formatActivity ⟨db.nextId, a.title, req.subject, req.activityType,
              req.duration, a.materials, a.steps, a.learningOutcomes, u.id, u.schoolId,
              req.topic, db.now⟩ req.gradeLevel req.topic) := by
        simp [Teacher.generateActivity, hv, hf, hl, hl2]
      have h2ec : (Teacher.generateActivity (some url) u req svc2
          (Teacher.generateActivity (some url) u req (.ok a) db).db).extCalls = 0 := by
        simp [Teacher.generateActivity, hv, hf, hl, hl2]
      refine ⟨?_, ?_⟩
      · rw [h1resp, h2resp]
      · rw [h1ec, h2ec]

theorem generateLessonPlan_idem_aux
    (url : String) (u : UserCtx) (req : Teacher.LPGenReq) (g : LPGenResult)
    (svc2 : ExtOutcome LPGenResult) (db : DB)
    (hv : Teacher.validateLPReq req = []) (hf : req.forceRegenerate = false)
    (hts : ∀ r ∈ db.lessonPlans, r.createdAt < db.now) :
    (∃ p1 p2,
      respLP (Teacher.generateLessonPlan (some url) u req (.ok g) db) = some p1 ∧
      respLP (Teacher.generateLessonPlan (some url) u req svc2
        (Teacher.generateLessonPlan (some url) u req (.ok g) db).db) = some p2 ∧
      p1.id = p2.id) ∧
    (Teacher.generateLessonPlan (some url) u req (.ok g) db).extCalls +
      (Teacher.generateLessonPlan (some url) u req svc2
        (Teacher.generateLessonPlan (some url) u req (.ok g) db).db).extCalls ≤ 1 := by
  cases hl : newestMatch (fun r => r.createdAt)
      (Teacher.lpCacheMatch u.id req.subject req.gradeLevel req.topics) db.lessonPlans with
  | some row =>
      have hdb1 : (Teacher.generateLessonPlan (some url) u req (.ok g) db).db = db := by
        simp [Teacher.generateLessonPlan, hv, hf, hl]
      have hr : ∀ (svc : ExtOutcome LPGenResult),
          respLP (Teacher.generateLessonPlan (some url) u req svc db) = some row := by
        intro svc
        simp [Teacher.generateLessonPlan, hv, hf, hl, respLP]
      have hec : ∀ (svc : ExtOutcome LPGenResult),
          (Teacher.generateLessonPlan (some url) u req svc db).extCalls = 0 := by
        intro svc
        simp [Teacher.generateLessonPlan, hv, hf, hl]
      refine ⟨⟨row, row, hr _, ?_, rfl⟩, ?_⟩
      · rw [hdb1]; exact hr svc2
      · rw [hdb1, hec, hec]
        decide
  | none =>
      have h1resp : respLP (Teacher.generateLessonPlan (some url) u req (.ok g) db) =
          some ⟨db.nextId, g.title, req.subject, req.gradeLevel, req.totalDuration,
            g.objectives, g.concepts, g.sequence, g.assessments, g.resources,
            u.id, u.schoolId, req.topics, db.now, db.now⟩ := by
        simp [Teacher.generateLessonPlan, hv, hf, hl, respLP]
      have h1ec : (Teacher.generateLessonPlan (some url) u req (.ok g) db).extCalls = 1 := by
        simp [Teacher.generateLessonPlan, hv, hf, hl]
      have hmatch : Teacher.lpCacheMatch u.id req.subject req.gradeLevel req.topics
          ⟨db.nextId, g.title, req.subject, req.gradeLevel, req.totalDuration,
            g.objectives, g.concepts, g.sequence, g.assessments, g.resources,
            u.id, u.schoolId, req.topics, db.now, db.now⟩ = true := by
        simp [Teacher.lpCacheMatch]
      have hl2 : newestMatch (fun r => r.createdAt)
          (Teacher.lpCacheMatch u.id req.subject req.gradeLevel req.topics)
          (db.lessonPlans ++ [⟨db.nextId, g.title, req.subject, req.gradeLevel,
            req.totalDuration, g.objectives, g.concepts, g.sequence, g.assessments,
            g.resources, u.id, u.schoolId, req.topics, db.now, db.now⟩]) =
            some ⟨db.nextId, g.title, req.subject, req.gradeLevel, req.totalDuration,
              g.objectives, g.concepts, g.sequence, g.assessments, g.resources,
              u.id, u.schoolId, req.topics, db.now, db.now⟩ :=
        newestMatch_append_newest _ _ db.lessonPlans _ hmatch (fun x hx => hts x hx)
      have h2resp : respLP (Teacher.generateLessonPlan (some url) u req svc2
          (Teacher.generateLessonPlan (some url) u req (.ok g) db).db) =
            some ⟨db.nextId, g.title, req.subject, req.gradeLevel, req.totalDuration,
              g.objectives, g.concepts, g.sequence, g.assessments, g.resources,
              u.id, u.schoolId, req.topics, db.now, db.now⟩ := by
        simp [Teacher.generateLessonPlan, hv, hf, hl, hl2, respLP]
      have h2ec : (Teacher.generateLessonPlan (some url) u req svc2
          (Teacher.generateLessonPlan (some url) u req (.ok g) db).db).extCalls = 0 := by
        simp [Teacher.generateLessonPlan, hv, hf, hl, hl2]
      refine ⟨⟨_, _, h1resp, h2resp, rfl⟩, ?_⟩
      rw [h1ec, h2ec]

/-- C1 counterexample: the legacy generateDeck matches the cache by
`title ILIKE '%topic%'`.  When the AI titles the deck "Light and Shadows" for
topic "Optics", the identical second call (forceRegenerate = false) misses the
cache, invokes the service again and returns a different deck id — so the
claim fails as stated over all cited generateDeck implementations. -/
theorem c1_counterexample :
    (respDeck (Legacy.generateDeck (some "http://ai") ⟨"u1", none⟩
      ⟨"Optics", "Physics", "10", none, false⟩
      (.ok ⟨"Light and Shadows", [⟨"s1", "c1", 1⟩]⟩) emptyDB)).map (fun d => d.id) =
      some 0 ∧
    (respDeck (Legacy.generateDeck (some "http://ai") ⟨"u1", none⟩
      ⟨"Optics", "Physics", "10", none, false⟩
      (.ok ⟨"Light and Shadows", [⟨"s1", "c1", 1⟩]⟩)
      (Legacy.generateDeck (some "http://ai") ⟨"u1", none⟩
        ⟨"Optics", "Physics", "10", none, false⟩
        (.ok ⟨"Light and Shadows", [⟨"s1", "c1", 1⟩]⟩) emptyDB).db)).map
      (fun d => d.id) = some 2 ∧
    (Legacy.generateDeck (some "http://ai") ⟨"u1", none⟩
      ⟨"Optics", "Physics", "10", none, false⟩
      (.ok ⟨"Light and Shadows", [⟨"s1", "c1", 1⟩]⟩) emptyDB).extCalls +
    (Legacy.generateDeck (some "http://ai") ⟨"u1", none⟩
      ⟨"Optics", "Physics", "10", none, false⟩
      (.ok ⟨"Light and Shadows", [⟨"s1", "c1", 1⟩]⟩)
      (Legacy.generateDeck (some "http://ai") ⟨"u1", none⟩
        ⟨"Optics", "Physics", "10", none, false⟩
        (.ok ⟨"Light and Shadows", [⟨"s1", "c1", 1⟩]⟩) emptyDB).db).extCalls = 2 := by
  decide

/-- C1 (amended): for the exact-source-field generators, two calls with
forceRegenerate = false and unchanged inputs (for decks: with a non-empty
chapter) return the same artifact both times — same deck / topic /
lesson-plan id, same formatted activity — and the service is invoked at most
once across the two calls; the title-substring legacy generateDeck only
guarantees this when the generated title contains the requested topic. -/
theorem c1_amended_idempotent_cache_hit
    (url : String) (u : UserCtx) (db : DB) (c : String)
    (reqD : Teacher.DeckGenReq) (gD : DeckGenResult) (svcD : ExtOutcome DeckGenResult)
    (reqA : Teacher.ActivityGenReq) (gA : ActivityGenResult)
    (svcA : ExtOutcome ActivityGenResult)
    (reqL : Teacher.LPGenReq) (gL : LPGenResult) (svcL : ExtOutcome LPGenResult)
    (reqT : Teacher.TopicGenReq) (gT : DeckGenResult) (svcT : ExtOutcome DeckGenResult)
    (hvD : Teacher.validateDeckReq reqD = []) (hfD : reqD.forceRegenerate = false)
    (hch : optTruthy reqD.chapter = some c)
    (hvA : Teacher.validateActivityReq reqA = []) (hfA : reqA.forceRegenerate = false)
    (hvL : Teacher.validateLPReq reqL = []) (hfL : reqL.forceRegenerate = false)
    (hvT : Teacher.validateTopicReq reqT = []) (hfT : reqT.forceRegenerate = false)
    (htsD : ∀ d ∈ db.decks, d.createdAt < db.now)
    (htsA : ∀ a ∈ db.activities, a.createdAt < db.now)
    (htsL : ∀ p ∈ db.lessonPlans, p.createdAt < db.now)
    (htsT : ∀ t ∈ db.topics, t.createdAt < db.now) :
    ((∃ d1 d2,
        respDeck (Teacher.generateDeck (some url) u reqD (.ok gD) db) = some d1 ∧
        respDeck (Teacher.generateDeck (some url) u reqD svcD
          (Teacher.generateDeck (some url) u reqD (.ok gD) db).db) = some d2 ∧
        d1.id = d2.id) ∧
      (Teacher.generateDeck (some url) u reqD (.ok gD) db).extCalls +
        (Teacher.generateDeck (some url) u reqD svcD
          (Teacher.generateDeck (some url) u reqD (.ok gD) db).db).extCalls ≤ 1) ∧
    ((Teacher.generateActivity (some url) u reqA (.ok gA) db).resp =
        (Teacher.generateActivity (some url) u reqA svcA
          (Teacher.generateActivity (some url) u reqA (.ok gA) db).db).resp ∧
      (Teacher.generateActivity (some url) u reqA (.ok gA) db).extCalls +
        (Teacher.generateActivity (some url) u reqA svcA
          (Teacher.generateActivity (some url) u reqA (.ok gA) db).db).extCalls ≤ 1) ∧
    ((∃ p1 p2,
        respLP (Teacher.generateLessonPlan (some url) u reqL (.ok gL) db) = some p1 ∧
        respLP (Teacher.generateLessonPlan (some url) u reqL svcL
          (Teacher.generateLessonPlan (some url) u reqL (.ok gL) db).db) = some p2 ∧
        p1.id = p2.id) ∧
      (Teacher.generateLessonPlan (some url) u reqL (.ok gL) db).extCalls +
        (Teacher.generateLessonPlan (some url) u reqL svcL
          (Teacher.generateLessonPlan (some url) u reqL (.ok gL) db).db).extCalls ≤ 1) ∧
    ((∃ t1 t2,
        respTopic (Teacher.generateTopic (some url) u reqT (.ok gT) db) = some t1 ∧
        respTopic (Teacher.generateTopic (some url) u reqT svcT
          (Teacher.generateTopic (some url) u reqT (.ok gT) db).db) = some t2 ∧
        t1.id = t2.id) ∧
      (Teacher.generateTopic (some url) u reqT (.ok gT) db).extCalls +
        (Teacher.generateTopic (some url) u reqT svcT
          (Teacher.generateTopic (some url) u reqT (.ok gT) db).db).extCalls ≤ 1) :=
  ⟨generateDeck_idem_aux url u reqD gD svcD db c hvD hfD hch htsD,
   generateActivity_idem_aux url u reqA gA svcA db hvA hfA htsA,
   generateLessonPlan_idem_aux url u reqL gL svcL db hvL hfL htsL,
   generateTopic_idem_aux url u reqT gT svcT db hvT hfT htsT⟩

/-- C1 witness: on the empty database, each generator called twice with the
same request serves the first call's artifact the second time, with exactly
one external invocation in total. -/
theorem c1_witness :
    (∃ d1 d2,
      respDeck (Teacher.generateDeck (some "http://ai") ⟨"u1", none⟩
        ⟨["Opt"], "Ph", "10", some "Opt", false⟩ (.ok ⟨"T", [⟨"s", "c", 1⟩]⟩) emptyDB) =
          some d1 ∧
      respDeck (Teacher.generateDeck (some "http://ai") ⟨"u1", none⟩
        ⟨["Opt"], "Ph", "10", some "Opt", false⟩ (.ok ⟨"T", [⟨"s", "c", 1⟩]⟩)
        (Teacher.generateDeck (some "http://ai") ⟨"u1", none⟩
          ⟨["Opt"], "Ph", "10", some "Opt", false⟩
          (.ok ⟨"T", [⟨"s", "c", 1⟩]⟩) emptyDB).db) = some d2 ∧
      d1.id = d2.id) ∧
    (Teacher.generateActivity (some "http://ai") ⟨"u1", none⟩
        ⟨"Opt", "Ph", 30, "group", "10", false⟩ (.ok ⟨"T", ["m"], ["s"], ["lo"]⟩)
        emptyDB).resp =
      (Teacher.generateActivity (some "http://ai") ⟨"u1", none⟩
        ⟨"Opt", "Ph", 30, "group", "10", false⟩ (.ok ⟨"T", ["m"], ["s"], ["lo"]⟩)
        (Teacher.generateActivity (some "http://ai") ⟨"u1", none⟩
          ⟨"Opt", "Ph", 30, "group", "10", false⟩ (.ok ⟨"T", ["m"], ["s"], ["lo"]⟩)
          emptyDB).db).resp ∧
    (Teacher.generateLessonPlan (some "http://ai") ⟨"u1", none⟩
        ⟨["Opt"], "Ph", "10", 45, false⟩ (.ok ⟨"T", "o", "c", "s", "a", "r"⟩)
        emptyDB).extCalls +
      (Teacher.generateLessonPlan (some "http://ai") ⟨"u1", none⟩
        ⟨["Opt"], "Ph", "10", 45, false⟩ (.ok ⟨"T", "o", "c", "s", "a", "r"⟩)
        (Teacher.generateLessonPlan (some "http://ai") ⟨"u1", none⟩
          ⟨["Opt"], "Ph", "10", 45, false⟩ (.ok ⟨"T", "o", "c", "s", "a", "r"⟩)
          emptyDB).db).extCalls ≤ 1 ∧
    (∃ t1 t2,
      respTopic (Teacher.generateTopic (some "http://ai") ⟨"u1", none⟩
        ⟨"Opt", "Ph", "10", 40, none, false⟩ (.ok ⟨"T", [⟨"s", "c", 1⟩]⟩) emptyDB) =
          some t1 ∧
      respTopic (Teacher.generateTopic (some "http://ai") ⟨"u1", none⟩
        ⟨"Opt", "Ph", "10", 40, none, false⟩ (.ok ⟨"T", [⟨"s", "c", 1⟩]⟩)
        (Teacher.generateTopic (some "http://ai") ⟨"u1", none⟩
          ⟨"Opt", "Ph", "10", 40, none, false⟩
          (.ok ⟨"T", [⟨"s", "c", 1⟩]⟩) emptyDB).db) = some t2 ∧
      t1.id = t2.id) := by
  have h := c1_amended_idempotent_cache_hit "http://ai" ⟨"u1", none⟩ emptyDB "Opt"
    ⟨["Opt"], "Ph", "10", some "Opt", false⟩ ⟨"T", [⟨"s", "c", 1⟩]⟩
    (.ok ⟨"T", [⟨"s", "c", 1⟩]⟩)
    ⟨"Opt", "Ph", 30, "group", "10", false⟩ ⟨"T", ["m"], ["s"], ["lo"]⟩
    (.ok ⟨"T", ["m"], ["s"], ["lo"]⟩)
    ⟨["Opt"], "Ph", "10", 45, false⟩ ⟨"T", "o", "c", "s", "a", "r"⟩
    (.ok ⟨"T", "o", "c", "s", "a", "r"⟩)
    ⟨"Opt", "Ph", "10", 40, none, false⟩ ⟨"T", [⟨"s", "c", 1⟩]⟩
    (.ok ⟨"T", [⟨"s", "c", 1⟩]⟩)
    (by decide) (by decide) (by decide) (by decide) (by decide) (by decide)
    (by decide) (by decide) (by decide) (by decide) (by decide) (by decide)
    (by decide)
  exact ⟨h.1.1, h.2.1.1, h.2.2.1.2, h.2.2.2.1⟩
